import Mathlib

/-!
Verification of the credit-report extraction/normalization pipeline.

This file gives a shallow embedding, in Lean 4, of the core pipeline of the
`credit-fix-pro-back` repository: the field-transform library
(`src/utils/parser.js`), the grid extractor
(`src/utils/extractors/grid-extractor.js`), the account-list extractor
(`src/utils/extractors/account-extractor.js`), the extraction orchestrator
(`ExtractionService.extractAll3BReport` in `src/services/extraction-service.js`)
and the report builder (`src/services/report-builder.js`), together with
theorems settling the specification's claims about them.

JavaScript is untyped, so the embedding fixes a small universe of runtime
values (`JSVal`) covering the values these functions are actually applied to
(`null`, `undefined`, `NaN`, finite numbers, strings, booleans), and models a
function that would raise a `TypeError` (a string method applied to a
non-string) as returning `Except.error`.  Numbers are modelled as exact
rationals: every number produced by this pipeline comes from `parseFloat` or
`parseInt` on short decimal digit strings, where IEEE doubles behave exactly
like rationals of this size for the equalities proved here.
-/

set_option autoImplicit false

namespace CreditFix

/-! ## JavaScript runtime values -/

/-- Model of the JavaScript runtime values the transform library receives:
`null`, `undefined`, the number `NaN`, a finite number, a string, a boolean. -/
inductive JSVal where
  | vnull
  | vundef
  | vnan
  | vnum (q : ℚ)
  | vstr (s : String)
  | vbool (b : Bool)
deriving DecidableEq, Repr

/-- JavaScript falsiness for the values of `JSVal`: `null`, `undefined`, `NaN`,
`0`, `""` and `false` are falsy. -/
def jsFalsy : JSVal → Bool
  | .vnull => true
  | .vundef => true
  | .vnan => true
  | .vnum q => q == 0
  | .vstr s => s == ""
  | .vbool b => !b

/-! ## Field-transform library (`src/utils/parser.js`)

`extractNumber`, `parseScoreDate`, `cleanText`, `parseScoreProgress`,
`parseBoostPotential`, `parseScoreBoost`, `parse3BScores`,
`parse3BPersonalInfo`, `parse3BSummary`. -/

/-- Characters kept by `extractNumber`'s `str.replace(/[^\d.\-+]/g, '')`:
digits, dot, minus, plus. -/
def keptChar (c : Char) : Bool :=
  c.isDigit || c == '.' || c == '-' || c == '+'

/-- The `replace(/[^\d.\-+]/g, '')` step of `extractNumber`. -/
def jsCleanNum (s : String) : List Char :=
  s.data.filter keptChar

/-- Value of a base-10 digit string (used for `parseInt(digits)` and for the
digit groups inside `parseFloat`). -/
def digitsToNat (ds : List Char) : Nat :=
  ds.foldl (fun a c => 10 * a + (c.toNat - 48)) 0

/-- Sign handling of `parseFloat`: consume one leading `+` or `-`. -/
def splitSign (cs : List Char) : ℚ × List Char :=
  match cs with
  | [] => (1, [])
  | c :: t => if c = '+' then (1, t) else if c = '-' then (-1, t) else (1, c :: t)

/-- JavaScript `parseFloat`, restricted to the alphabet `[0-9.+-]` that
`extractNumber` can feed it (after the `replace` step no whitespace, exponent
marker or other character can remain): an optional sign, then the longest
prefix of the form `digits`, `digits.digits`, `.digits` or `digits.`;
`none` models a `NaN` result. -/
def jsParseFloat (cs : List Char) : Option ℚ :=
  let p := splitSign cs
  let ip := p.2.takeWhile Char.isDigit
  match p.2.drop ip.length with
  | '.' :: r2 =>
      let fp := r2.takeWhile Char.isDigit
      if ip.isEmpty && fp.isEmpty then none
      else some (p.1 * ((digitsToNat ip : ℚ) + (digitsToNat fp : ℚ) / 10 ^ fp.length))
  | _ => if ip.isEmpty then none else some (p.1 * (digitsToNat ip : ℚ))

/-- Embedding of `extractNumber` (`parser.js` lines 14-32).  The JS function:
returns `null` when the input is falsy and not the number `0`; passes a
number through after an `isNaN` check; otherwise stringifies, strips every
character outside `[0-9.+-]` and applies `parseFloat`, mapping a `NaN` parse
to `null`.  It never throws, so no `Except` is needed. -/
def extractNumber : JSVal → Option ℚ
  | .vnull => none
  | .vundef => none
  | .vnan => none
  | .vnum q => some q
  | .vstr s => if s == "" then none else jsParseFloat (jsCleanNum s)
  | .vbool b => if b then jsParseFloat (jsCleanNum "true") else none

/-- Prefix test on character lists (used to model literal and regex matching). -/
def isPrefOf : List Char → List Char → Bool
  | [], _ => true
  | _ :: _, [] => false
  | a :: as, b :: bs => a == b && isPrefOf as bs

/-- Substring test: JavaScript `hay.includes(sub)` on character lists. -/
def hasSub (sub : List Char) : List Char → Bool
  | [] => sub.isEmpty
  | c :: t => isPrefOf sub (c :: t) || hasSub sub t

/-- JavaScript `s.includes(sub)`. -/
def jsIncludes (s sub : String) : Bool :=
  hasSub sub.data s.data

/-- Attempt to match the regex `(\d{1,2})\/(\d{1,2})\/(\d{4})` at the start of
the input, returning the three captured digit groups.  `\d{1,2}` matches a run
of exactly one or two digits here: a longer digit run admits no split that
puts `/` right after the group. -/
def matchMDYAt (cs : List Char) : Option (List Char × List Char × List Char) :=
  let m := cs.takeWhile Char.isDigit
  if m.length = 0 || m.length > 2 then none
  else
    match cs.drop m.length with
    | '/' :: r2 =>
        let d := r2.takeWhile Char.isDigit
        if d.length = 0 || d.length > 2 then none
        else
          match r2.drop d.length with
          | '/' :: r4 =>
              let y := (r4.takeWhile Char.isDigit).take 4
              if y.length = 4 then some (m, d, y) else none
          | _ => none
    | _ => none

/-- Leftmost match of `(\d{1,2})\/(\d{1,2})\/(\d{4})`: try every start
position from the left, as `String.prototype.match` does. -/
def scanMDY : List Char → Option (List Char × List Char × List Char)
  | [] => none
  | c :: t =>
    match matchMDYAt (c :: t) with
    | some r => some r
    | none => scanMDY t

/-- The `padStart(2, '0')` applied to a one- or two-digit group. -/
def pad2 (ds : List Char) : List Char :=
  if ds.length ≥ 2 then ds else '0' :: ds

/-- Core of `parseScoreDate` on an actual string: locate `MM/DD/YYYY`, zero-pad,
and rebuild `YYYY-MM-DD`. -/
def scoreDateCore (s : String) : Option String :=
  (scanMDY s.data).map fun r =>
    String.mk (r.2.2 ++ '-' :: pad2 r.1 ++ '-' :: pad2 r.2.1)

/-- Embedding of `parseScoreDate` (`parser.js` lines 39-54): falsy input gives
`null`; a string is searched for a `MM/DD/YYYY` pattern; a truthy non-string
has no `.match` method, so the call throws (`Except.error`). -/
def parseScoreDate : JSVal → Except Unit (Option String)
  | v =>
    if jsFalsy v then .ok none
    else
      match v with
      | .vstr s => .ok (scoreDateCore s)
      | _ => .error ()

/-- Whitespace class shared by JS `trim` and the `\s` regex class, on the
ASCII range these inputs use. -/
def wsChar (c : Char) : Bool :=
  c == ' ' || c == '\t' || c == '\n' || c == '\r'

/-- Character-level trim. -/
def trimChars (cs : List Char) : List Char :=
  ((cs.dropWhile wsChar).reverse.dropWhile wsChar).reverse

/-- JavaScript `String.prototype.trim`. -/
def jsTrim (s : String) : String :=
  ⟨trimChars s.data⟩

/-- Trim-and-collapse core of `cleanText`: trim, then map `"--"` and `""`
to `null`. -/
def trimClean (s : String) : Option String :=
  let c := jsTrim s
  if c == "--" || c == "" then none else some c

/-- Embedding of `cleanText` (`parser.js` lines 138-142): falsy input gives
`null`; a string is trimmed with the `"--"`/empty collapse; a truthy
non-string has no `.trim` method, so the call throws. -/
def cleanText : JSVal → Except Unit (Option String)
  | v =>
    if jsFalsy v then .ok none
    else
      match v with
      | .vstr s => .ok (trimClean s)
      | _ => .error ()

/-- Lowercased character data of a string, modelling the `/i` regex flag. -/
def lowerData (s : String) : List Char :=
  s.data.map Char.toLower

/-- Attempt to match `\s+(\d+)` at the start of the input (the tail shared by
the `starting score was` pattern), returning the captured digit run. -/
def matchWsDigitsAt (cs : List Char) : Option (List Char) :=
  let w := cs.takeWhile wsChar
  if w.isEmpty then none
  else
    let d := (cs.drop w.length).takeWhile Char.isDigit
    if d.isEmpty then none else some d

/-- Attempt to match `\+?(\d+)\s+pts` at the start of the input. -/
def matchOptPlusDigitsPtsAt (cs : List Char) : Option (List Char) :=
  let r :=
    match cs with
    | '+' :: t => t
    | _ => cs
  let d := r.takeWhile Char.isDigit
  if d.isEmpty then none
  else
    let r2 := r.drop d.length
    let w := r2.takeWhile wsChar
    if w.isEmpty then none
    else if isPrefOf ['p', 't', 's'] (r2.drop w.length) then some d else none

/-- Attempt to match `-(\d+)\s+pts` at the start of the input. -/
def matchMinusDigitsPtsAt (cs : List Char) : Option (List Char) :=
  match cs with
  | '-' :: r => matchOptPlusDigitsPtsAt r
  | _ => none

/-- Leftmost match of a positional matcher, scanning start positions from the
left as the regex engine does. -/
def scanFor (f : List Char → Option (List Char)) : List Char → Option (List Char)
  | [] => f []
  | c :: t =>
    match f (c :: t) with
    | some r => some r
    | none => scanFor f t

/-- Leftmost position where a literal matches, returning the remainder after
it; models the `lit` prefix of a `lit.*?rest` regex. -/
def afterLit (lit : List Char) : List Char → Option (List Char)
  | [] => if lit.isEmpty then some [] else none
  | c :: t => if isPrefOf lit (c :: t) then some ((c :: t).drop lit.length) else afterLit lit t

/-- Matcher for a pattern that is a literal immediately followed by a tail
pattern (as in `starting score was\s+(\d+)` or `added\s+\+?(\d+)\s+pts`):
at the current position the literal must be a prefix and the tail must match
right after it. -/
def matchLitTailAt (lit : List Char) (tailM : List Char → Option (List Char))
    (cs : List Char) : Option (List Char) :=
  if isPrefOf lit cs then tailM (cs.drop lit.length) else none

/-- Matcher for a `lit.*?tail` pattern with a lazy gap: the overall regex
matches iff some occurrence of the literal has a completion of the tail
somewhere after it; since any completion after a later occurrence also lies
after the first one, the match anchors at the first occurrence of the
literal, and the lazy `.*?` selects the earliest completion after it. -/
def scanLitLazyTail (lit : List Char) (tailM : List Char → Option (List Char))
    (cs : List Char) : Option (List Char) :=
  match afterLit lit cs with
  | none => none
  | some r => scanFor tailM r

/-- Attempt to match `\s+\+?(\d+)\s+pts` at the start of the input. -/
def matchWsOptPlusDigitsPtsAt (cs : List Char) : Option (List Char) :=
  let w := cs.takeWhile wsChar
  if w.isEmpty then none else matchOptPlusDigitsPtsAt (cs.drop w.length)

/-- Embedding of `parseScoreProgress` (`parser.js` lines 61-71): falsy input
gives the all-null record; on a string, `/starting score was\s+(\d+)/i` and
`/added\s+\+?(\d+)\s+pts/i` are applied and each missing match yields `null`;
a truthy non-string throws on `.match`. -/
def parseScoreProgress : JSVal → Except Unit (Option ℤ × Option ℤ)
  | v =>
    if jsFalsy v then .ok (none, none)
    else
      match v with
      | .vstr s =>
          let cs := lowerData s
          let starting := scanFor
            (matchLitTailAt "starting score was".data matchWsDigitsAt) cs
          let points := scanFor
            (matchLitTailAt "added".data matchWsOptPlusDigitsPtsAt) cs
          .ok ((starting.map fun d => (digitsToNat d : ℤ)),
               (points.map fun d => (digitsToNat d : ℤ)))
      | _ => .error ()

/-- Attempt to match `\+(\d+)\s+pts` at the start of the input (the mandatory
plus distinguishes `parseBoostPotential` from the optional-plus tail). -/
def matchPlusDigitsPtsAt (cs : List Char) : Option (List Char) :=
  match cs with
  | '+' :: r =>
      let d := r.takeWhile Char.isDigit
      if d.isEmpty then none
      else
        let r2 := r.drop d.length
        let w := r2.takeWhile wsChar
        if w.isEmpty then none
        else if isPrefOf ['p', 't', 's'] (r2.drop w.length) then some d else none
  | _ => none

/-- Embedding of `parseBoostPotential` (`parser.js` lines 78-83): falsy input
gives `null`; on a string, `/\+(\d+)\s+pts/i` is applied; a truthy non-string
throws on `.match`. -/
def parseBoostPotential : JSVal → Except Unit (Option ℤ)
  | v =>
    if jsFalsy v then .ok none
    else
      match v with
      | .vstr s =>
          .ok ((scanFor matchPlusDigitsPtsAt (lowerData s)).map
            fun d => (digitsToNat d : ℤ))
      | _ => .error ()

/-- Embedding of `parseScoreBoost` (`parser.js` lines 90-99): falsy input
gives the all-null record; on a string, `/increase.*?\+?(\d+)\s+pts/i` and
`/decrease.*?-(\d+)\s+pts/i` are applied, the decrease capture negated; a
truthy non-string throws on `.match`. -/
def parseScoreBoost : JSVal → Except Unit (Option ℤ × Option ℤ)
  | v =>
    if jsFalsy v then .ok (none, none)
    else
      match v with
      | .vstr s =>
          let cs := lowerData s
          let payment := scanLitLazyTail "increase".data matchOptPlusDigitsPtsAt cs
          let negative := scanLitLazyTail "decrease".data matchMinusDigitsPtsAt cs
          .ok ((payment.map fun d => (digitsToNat d : ℤ)),
               (negative.map fun d => -(digitsToNat d : ℤ)))
      | _ => .error ()

/-! ## Raw field maps and JSON values

The extractors produce, per bureau, a plain JS object mapping field names to a
trimmed string or `null`.  Such an object is modelled as an association list
`FieldMap`; reading an absent property yields `undefined`, which every
consumer in this pipeline treats exactly like `null` (both are falsy and both
are only ever inspected through falsiness checks), so `mget` collapses the
two into `none`. -/

/-- Per-bureau raw field map: field name to raw trimmed string or `null`. -/
def FieldMap : Type := List (String × Option String)

instance : DecidableEq FieldMap := by
  unfold FieldMap; infer_instance

/-- JS property read on a raw field map (`undefined` and `null` collapse). -/
def mget (m : FieldMap) (k : String) : Option String :=
  match m.lookup k with
  | some v => v
  | none => none

/-- JS `a || dflt` for the string-with-default pattern. -/
def jsOrStr (a : Option String) (dflt : String) : String :=
  match a with
  | some s => if s == "" then dflt else s
  | none => dflt

/-- Behaviour of `cleanText` on a raw field value (a string or `null`), on
which the JS function cannot throw: `null`/`undefined` and `""` are falsy and
give `null`, otherwise trim with the `"--"` collapse. -/
def cleanTextS : Option String → Option String
  | none => none
  | some s => if s == "" then none else trimClean s

/-- Behaviour of `parseScoreDate` on a raw field value. -/
def parseScoreDateS : Option String → Option String
  | none => none
  | some s => if s == "" then none else scoreDateCore s

/-- Behaviour of `extractNumber` on a raw field value. -/
def extractNumberS : Option String → Option ℚ
  | none => none
  | some s => if s == "" then none else jsParseFloat (jsCleanNum s)

/-- Per-bureau triple of raw grid maps, as produced by the grid extractor and
consumed by `parse3BPersonalInfo` / `parse3BSummary`. -/
structure Grid3 where
  transunion : FieldMap
  experian : FieldMap
  equifax : FieldMap
deriving DecidableEq

/-- Result of `parsePersonalInfo` (`parser.js` lines 162-171). -/
structure PersonalInfoB where
  credit_report_date : Option String
  name : Option String
  date_of_birth : Option String
  current_address : Option String
  previous_address : Option String
  employer : Option String
deriving DecidableEq

/-- Embedding of `parsePersonalInfo` (`parser.js` lines 162-171).  Note the
property names it reads (`reportDate`, `dob`, `currentAddress`, ...) are the
dashboard-era camelCase names, not the snake_case names the grid extractor
config produces; reading an absent property gives `undefined`, hence `null`
after `cleanText`. -/
def parsePersonalInfo (m : FieldMap) : PersonalInfoB where
  credit_report_date := cleanTextS (mget m "reportDate")
  name := cleanTextS (mget m "name")
  date_of_birth := cleanTextS (mget m "dob")
  current_address := cleanTextS (mget m "currentAddress")
  previous_address := cleanTextS (mget m "previousAddress")
  employer := cleanTextS (mget m "employer")

/-- Per-bureau triple of parsed personal information. -/
structure PersonalInfo3 where
  transunion : PersonalInfoB
  experian : PersonalInfoB
  equifax : PersonalInfoB
deriving DecidableEq

/-- Embedding of `parse3BPersonalInfo` (`parser.js` lines 176-182). -/
def parse3BPersonalInfo (g : Grid3) : PersonalInfo3 where
  transunion := parsePersonalInfo g.transunion
  experian := parsePersonalInfo g.experian
  equifax := parsePersonalInfo g.equifax

/-- Result of `parseSummary` (`parser.js` lines 189-202). -/
structure SummaryB where
  total_accounts : Option ℚ
  open_accounts : Option ℚ
  closed_accounts : Option ℚ
  delinquent : Option ℚ
  derogatory : Option ℚ
  balances : Option String
  payments : Option String
  public_records : Option ℚ
  inquiries_2years : Option ℚ
deriving DecidableEq

/-- Per-bureau triple of parsed summaries. -/
structure Summary3 where
  transunion : SummaryB
  experian : SummaryB
  equifax : SummaryB
deriving DecidableEq

/-- Raw scores triple fed to `parse3BScores` (a JS object whose three
properties hold arbitrary runtime values). -/
structure ScoresRaw where
  transunion : JSVal
  experian : JSVal
  equifax : JSVal
deriving DecidableEq

/-- Embedding of `parse3BScores` (`parser.js` lines 149-155). -/
def parse3BScores (r : ScoresRaw) : Option ℚ × Option ℚ × Option ℚ :=
  (extractNumber r.transunion, extractNumber r.experian, extractNumber r.equifax)

/-! ## JSON-shaped report values -/

/-- JSON-like values making up the final report object. -/
inductive JVal where
  | jnull
  | jstr (s : String)
  | jnum (q : ℚ)
  | jbool (b : Bool)
  | jarr (xs : List JVal)
  | jobj (fs : List (String × JVal))
deriving BEq, Inhabited

/-- Encode a string-or-null field. -/
def jopt : Option String → JVal
  | none => .jnull
  | some s => .jstr s

/-- Encode a number-or-null field. -/
def joptQ : Option ℚ → JVal
  | none => .jnull
  | some q => .jnum q

/-- Raw dashboard-score data fed to `buildCreditScoreData`: each field is a
number (or string for the textual fields) or absent; `??` treats `null` and
`undefined` alike, so both are `none`. -/
structure DashboardRaw where
  currentScore : Option ℚ
  scoreDate : Option String
  startingScore : Option ℚ
  pointsGained : Option ℚ
  scoreBuilderBoost : Option ℚ
  paymentBoost : Option ℚ
  negativeImpact : Option ℚ
  scoreBoostDescription : Option String
  futureScore : Option ℚ
deriving DecidableEq

/-- Embedding of `buildCreditScoreData` (`parser.js` lines 105-130).  The
function reads the clock (`new Date().toISOString()`) for its own nested
`scraped_at` field; the clock is passed in as `now`. -/
def buildCreditScoreData (d : DashboardRaw) (now : String) : JVal :=
  .jobj
    [("credit_score_info", .jobj
        [("current_score", joptQ d.currentScore),
         ("score_date", jopt d.scoreDate),
         ("starting_score", joptQ d.startingScore),
         ("points_gained", joptQ d.pointsGained)]),
     ("score_tracker", .jobj
        [("current_score", joptQ d.currentScore),
         ("starting_score", joptQ d.startingScore),
         ("points_added", joptQ d.pointsGained)]),
     ("score_builder", .jobj
        [("potential_boost", joptQ d.scoreBuilderBoost),
         ("description", .jstr "Taking action directly with the source")]),
     ("score_boost", .jobj
        [("payment_boost", joptQ d.paymentBoost),
         ("negative_impact", joptQ d.negativeImpact),
         ("description", .jstr (jsOrStr d.scoreBoostDescription "Payment and spending impact"))]),
     ("future_score", joptQ d.futureScore),
     ("scraped_at", .jstr now)]

/-! ## Grid extractor (`src/utils/extractors/grid-extractor.js`)

The relevant document shape: the page holds a list of `section.mt-5` sections;
each section holds a list of `div.d-grid.grid-cols-4` grids; each grid holds a
list of `div.d-contents` column groups; each column group holds the raw
`textContent` of its `p.grid-cell` cells in order. -/

/-- A four-column grid: its column groups, each as the list of raw cell texts. -/
structure Grid4 where
  columns : List (List String)
deriving DecidableEq

/-- One `section.mt-5` report section, for the grid extractor's view. -/
structure GridSection where
  grids : List Grid4
deriving DecidableEq

/-- The document as the grid extractor sees it. -/
structure GridDoc where
  sections : List GridSection
deriving DecidableEq

/-- Configuration of one grid extraction (`config/extractors.js` entries of
type `grid`): section ordinal, grid ordinal, ordered field names. -/
structure GridConfig where
  sectionIndex : Nat
  gridIndex : Nat
  fields : List String
deriving DecidableEq

/-- The `extractBureauData` closure of `extractGridData`: pick column group
`i`, skip the header cell, trim the remaining cell texts.  The call sites
guarantee `i < columns.length` (the length-4 precondition was checked), so the
out-of-range default is unreachable. -/
def extractBureauCells (cols : List (List String)) (i : Nat) : List String :=
  (((cols.get? i).getD []).drop 1).map jsTrim

/-- The `mapFieldsToObject` closure of `extractGridData`: zip the configured
field names positionally against the data cells; a missing cell
(`dataArray[index]` is `undefined`) or an empty string is `|| null`-collapsed. -/
def mapFieldsToObject (fields : List String) (dataArr : List String) : FieldMap :=
  fields.enum.map fun p =>
    (p.2,
      match dataArr.get? p.1 with
      | some s => if s == "" then none else some s
      | none => none)

/-- Embedding of `extractGridData` (`grid-extractor.js` lines 20-106):
`null` when there are no sections, the section ordinal is out of range, the
section has no grids, the grid ordinal is out of range, or the grid has fewer
than four column groups; otherwise the three bureau maps (column groups 1-3,
group 0 being the label column). -/
def extractGridData (doc : GridDoc) (cfg : GridConfig) : Option Grid3 :=
  if doc.sections.isEmpty then none
  else
    match doc.sections.get? cfg.sectionIndex with
    | none => none
    | some sec =>
      if sec.grids.isEmpty then none
      else
        match sec.grids.get? cfg.gridIndex with
        | none => none
        | some grid =>
          if grid.columns.length < 4 then none
          else
            some
              { transunion := mapFieldsToObject cfg.fields (extractBureauCells grid.columns 1)
                experian := mapFieldsToObject cfg.fields (extractBureauCells grid.columns 2)
                equifax := mapFieldsToObject cfg.fields (extractBureauCells grid.columns 3) }

/-! ## Account-list extractor (`src/utils/extractors/account-extractor.js`)

Document shape for the account extractor: sections (`section.mt-5`) carrying
an optional first `h5` heading text and the account containers inside them;
each account container carries an optional name element text, an optional
23-row grid (as column groups of raw cell texts), an optional payment-history
container and an optional days-late block. -/

/-- One month cell of a payment-history calendar: its class-token list and the
raw texts of its badge and label children (absent when the child is missing). -/
structure MonthDiv where
  classes : List String
  badgeText : Option String
  labelText : Option String
deriving DecidableEq

/-- One bureau block of a payment-history container. -/
structure BureauHistory where
  monthsContainer : Option (List MonthDiv)
deriving DecidableEq

/-- The payment-history sub-container of one account. -/
structure PHContainer where
  bureauHistories : List BureauHistory
deriving DecidableEq

/-- One bureau column of the days-late block: its 30/60/90 values grid. -/
structure DLColumn where
  valuesGrid : Option (List String)
deriving DecidableEq

/-- The days-late inner grid with one column per bureau. -/
structure DLGrid where
  bureauColumns : List DLColumn
deriving DecidableEq

/-- The days-late block of an account (located by its fixed heading text). -/
structure DLSection where
  grid : Option DLGrid
deriving DecidableEq

/-- The 23-row account grid: column groups of raw cell texts. -/
structure AccountGrid where
  bureauColumns : List (List String)
deriving DecidableEq

/-- One account container inside the Account History section. -/
structure AccountContainer where
  nameText : Option String
  grid : Option AccountGrid
  paymentHistory : Option PHContainer
  daysLate : Option DLSection
deriving DecidableEq

/-- One `section.mt-5` as the account extractor sees it. -/
structure AHSection where
  headingText : Option String
  accountContainers : List AccountContainer
deriving DecidableEq

/-- The document as the account extractor sees it. -/
structure AHDoc where
  sections : List AHSection
deriving DecidableEq

/-- The `x?.textContent.trim() || dflt` idiom: trim the text if the element is
present, falling back to the default when absent or trimmed-empty. -/
def jsTrimOr (v : Option String) (dflt : String) : String :=
  match v with
  | some t => if jsTrim t == "" then dflt else jsTrim t
  | none => dflt

/-- The `x?.textContent.trim() || null` idiom. -/
def jsTrimOrNull (v : Option String) : Option String :=
  match v with
  | some t => if jsTrim t == "" then none else some (jsTrim t)
  | none => none

/-- Scan a month div's class list for the `status-*` marker and keep the
suffix; `undefined` (no marker) and the empty suffix both fall back to
`"unknown"` through `|| 'unknown'`. -/
def statusClassOf (classes : List String) : String :=
  match classes.find? (fun c => isPrefOf "status-".data c.data) with
  | some c =>
      if (⟨c.data.drop 7⟩ : String) == "" then "unknown" else ⟨c.data.drop 7⟩
  | none => "unknown"

/-- A parsed month entry `{month, status, status_class}`. -/
structure MonthEntry where
  month : String
  status : String
  status_class : String
deriving DecidableEq

/-- Per-bureau payment-history calendars. -/
structure PaymentHistory3 where
  transunion : List MonthEntry
  experian : List MonthEntry
  equifax : List MonthEntry
deriving DecidableEq

/-- Per-bureau 30/60/90 days-late counts (strings, `"0"`-defaulted when the
values grid is present; `null` when it is missing). -/
structure DaysLateB where
  d30 : Option String
  d60 : Option String
  d90 : Option String
deriving DecidableEq

/-- Per-bureau triple of days-late counts. -/
structure DaysLate3 where
  transunion : DaysLateB
  experian : DaysLateB
  equifax : DaysLateB
deriving DecidableEq

/-- One raw account record as the account extractor emits it and the report
builder consumes it. -/
structure RawAccount where
  account_name : Option String
  transunion : Option FieldMap
  experian : Option FieldMap
  equifax : Option FieldMap
  payment_history : Option PaymentHistory3
  days_late : Option DaysLate3
deriving DecidableEq

/-- The `extractMonthBadges` closure: map the months of one bureau block (an
absent months container yields `[]`). -/
def extractMonthBadges (bh : BureauHistory) : List MonthEntry :=
  match bh.monthsContainer with
  | none => []
  | some months =>
      months.map fun m =>
        { month := jsTrimOr m.labelText ""
          status := jsTrimOr m.badgeText ""
          status_class := statusClassOf m.classes }

/-- Indexing into the bureau blocks; the call site guarantees the index is in
range (length at least 3 was checked), so the default is unreachable. -/
def bhAt (l : List BureauHistory) (i : Nat) : BureauHistory :=
  (l.get? i).getD ⟨none⟩

/-- Embedding of the `extractPaymentHistory` closure (`account-extractor.js`
lines 132-176): `null` when the container is missing or fewer than three
bureau blocks are found, else the three per-bureau month lists. -/
def extractPaymentHistory (c : AccountContainer) : Option PaymentHistory3 :=
  match c.paymentHistory with
  | none => none
  | some ph =>
    if ph.bureauHistories.length < 3 then none
    else
      some
        { transunion := extractMonthBadges (bhAt ph.bureauHistories 0)
          experian := extractMonthBadges (bhAt ph.bureauHistories 1)
          equifax := extractMonthBadges (bhAt ph.bureauHistories 2) }

/-- The `extractBureauDaysLate` closure: a missing values grid gives the
all-`null` record, otherwise each of the three buckets defaults to `"0"`. -/
def extractBureauDaysLate (col : DLColumn) : DaysLateB :=
  match col.valuesGrid with
  | none => { d30 := none, d60 := none, d90 := none }
  | some values =>
      { d30 := some (jsTrimOr (values.get? 0) "0")
        d60 := some (jsTrimOr (values.get? 1) "0")
        d90 := some (jsTrimOr (values.get? 2) "0") }

/-- Indexing into the days-late bureau columns; in range at the call site. -/
def dlAt (l : List DLColumn) (i : Nat) : DLColumn :=
  (l.get? i).getD ⟨none⟩

/-- Embedding of the `extractDaysLate` closure (`account-extractor.js` lines
178-222): `null` when the heading-matched block, its grid, or three bureau
columns are missing. -/
def extractDaysLate (c : AccountContainer) : Option DaysLate3 :=
  match c.daysLate with
  | none => none
  | some dl =>
    match dl.grid with
    | none => none
    | some g =>
      if g.bureauColumns.length < 3 then none
      else
        some
          { transunion := extractBureauDaysLate (dlAt g.bureauColumns 0)
            experian := extractBureauDaysLate (dlAt g.bureauColumns 1)
            equifax := extractBureauDaysLate (dlAt g.bureauColumns 2) }

/-- The per-account `extractBureauData` closure: pick column group `i` (in
range at the call site), skip the header cell, then zip the configured field
names against the cells with trim-and-`|| null`. -/
def extractAccountBureau (fields : List String) (cols : List (List String))
    (i : Nat) : FieldMap :=
  let cellsArr := ((cols.get? i).getD []).drop 1
  fields.enum.map fun p => (p.2, jsTrimOrNull (cellsArr.get? p.1))

/-- Processing of one account container (`account-extractor.js` lines 63-129):
skipped (`return` inside `forEach`) when the grid is missing or has fewer than
four column groups; otherwise the account is emitted, its name defaulting to
`Unknown Account <idx+1>`, its payment history and days late degraded to
`null` by their own guards (the surrounding `try`/`catch` has nothing left to
catch: every operation here is total). -/
def processAccount (fields : List String) (idx : Nat) (c : AccountContainer) :
    Option RawAccount :=
  let accountName := jsTrimOr c.nameText ("Unknown Account " ++ toString (idx + 1))
  match c.grid with
  | none => none
  | some g =>
    if g.bureauColumns.length < 4 then none
    else
      some
        { account_name := some accountName
          transunion := some (extractAccountBureau fields g.bureauColumns 1)
          experian := some (extractAccountBureau fields g.bureauColumns 2)
          equifax := some (extractAccountBureau fields g.bureauColumns 3)
          payment_history := extractPaymentHistory c
          days_late := extractDaysLate c }

/-- Locating the Account History section (`account-extractor.js` lines 25-51):
first section whose `h5` heading contains `"Account History"`, else the third
section when at least three exist. -/
def findAHSection (sections : List AHSection) : Option AHSection :=
  match sections.find? (fun s =>
      match s.headingText with
      | some h => jsIncludes h "Account History"
      | none => false) with
  | some s => some s
  | none => if 3 ≤ sections.length then sections.get? 2 else none

/-- Embedding of `extractAccountHistory` (`account-extractor.js` lines
18-235): empty when no section or no containers are found, else each
container processed independently with its index. -/
def extractAccountHistory (doc : AHDoc) (fields : List String) : List RawAccount :=
  match findAHSection doc.sections with
  | none => []
  | some sec =>
    if sec.accountContainers.isEmpty then []
    else sec.accountContainers.enum.filterMap fun p => processAccount fields p.1 p.2

/-- Pagination options `{limit, offset}`; a field is `none` when the caller
omitted it (the JS destructuring default then applies). -/
structure AHOptions where
  limit : Option Nat
  offset : Option Nat
deriving DecidableEq

/-- Result shape of `extractAccountHistoryPaginated`. -/
structure PaginatedAccounts where
  accounts : List RawAccount
  total : Nat
  hasMore : Bool
  limit : Nat
  offset : Nat
deriving DecidableEq

/-- Embedding of `extractAccountHistoryPaginated` (`account-extractor.js`
lines 246-280): extract the full list, then slice `[offset, offset+limit)`
in memory; `total` is the full length and `hasMore` is
`offset + limit < total`.  Defaults: `limit = 20`, `offset = 0`. -/
def extractAccountHistoryPaginated (doc : AHDoc) (fields : List String)
    (opts : AHOptions) : PaginatedAccounts :=
  let limit := opts.limit.getD 20
  let offset := opts.offset.getD 0
  let allAccounts := extractAccountHistory doc fields
  { accounts := (allAccounts.drop offset).take limit
    total := allAccounts.length
    hasMore := decide (offset + limit < allAccounts.length)
    limit := limit
    offset := offset }

/-- The 22 configured account-history field names
(`config/extractors.js`, `accountHistory.fields`). -/
def accountHistoryFields : List String :=
  ["account_number", "high_balance", "last_verified", "date_last_activity",
   "date_reported", "date_opened", "balance_owed", "closed_date",
   "account_rating", "account_description", "dispute_status", "creditor_type",
   "account_status", "payment_status", "creditor_remarks", "payment_amount",
   "last_payment", "term_length", "past_due_amount", "account_type",
   "payment_frequency", "credit_limit"]

/-! ## Extraction orchestrator (`ExtractionService.extractAll3BReport`,
`src/services/extraction-service.js` lines 37-191)

`extractAll3BReport` dispatches, per requested section, to an extractor call
and wraps each call in `try`/`catch`.  For this embedding the callees at the
seven call sites are black boxes: a `Page` records, for each call site, the
outcome of awaiting that call — `.ok` with the returned value, or `.error`
for a rejected call (the case each `catch` guards).  The orchestrator's own
logic — request filtering, the catch fallbacks, the summary merge, the
pagination bookkeeping — is modelled exactly. -/

/-- Scores triple returned by `extractScores`: `parseInt(...) || null` per
bureau. -/
structure ScoresV where
  transunion : Option ℤ
  experian : Option ℤ
  equifax : Option ℤ
deriving DecidableEq

/-- Per-bureau integer counters (`parseInt(...) || 0`), as returned by
`extractPublicRecords` and the inquiries-count read. -/
structure Counts3 where
  transunion : ℤ
  experian : ℤ
  equifax : ℤ
deriving DecidableEq

/-- The three extra Summary counters read by `extractSummaryDetails`. -/
structure SummaryCounts where
  total_accounts : ℤ
  open_accounts : ℤ
  closed_accounts : ℤ
deriving DecidableEq

/-- Per-bureau triple of extra Summary counters. -/
structure SummaryDetails3 where
  transunion : SummaryCounts
  experian : SummaryCounts
  equifax : SummaryCounts
deriving DecidableEq

/-- One inquiry detail row emitted by `extractInquiriesDetails`. -/
structure InquiryRow where
  creditor_name : Option String
  inquiry_date : Option String
  credit_bureau : Option String
deriving DecidableEq

/-- The compound `{count, details}` result of `extractInquiries`. -/
structure InquiriesResult where
  count : Option Counts3
  details : List InquiryRow
deriving DecidableEq

/-- A summary-map value after the FASE 5 merge: the grid extractor produces
strings or `null`; `extractSummaryDetails` merges in plain numbers. -/
inductive GVal where
  | gstr (v : Option String)
  | gnum (n : ℤ)
deriving DecidableEq

/-- A per-bureau summary map possibly holding merged numeric counters. -/
def GMap : Type := List (String × GVal)

instance : DecidableEq GMap := by
  unfold GMap; infer_instance

/-- Per-bureau triple of merged summary maps. -/
structure Grid3G where
  transunion : GMap
  experian : GMap
  equifax : GMap
deriving DecidableEq

/-- Inject a raw grid map into the merged-value world. -/
def injMap (m : FieldMap) : GMap :=
  m.map fun kv => (kv.1, GVal.gstr kv.2)

/-- Inject a whole grid triple. -/
def injGrid (g : Grid3) : Grid3G :=
  ⟨injMap g.transunion, injMap g.experian, injMap g.equifax⟩

/-- The three counter entries contributed by `extractSummaryDetails` for one
bureau. -/
def countsEntries (c : SummaryCounts) : GMap :=
  [("total_accounts", .gnum c.total_accounts),
   ("open_accounts", .gnum c.open_accounts),
   ("closed_accounts", .gnum c.closed_accounts)]

/-- JS object spread `{...a, ...b}`: keys of `a` in order with `b`'s value
where `b` overrides, then `b`-only keys appended in `b`'s order. -/
def spreadG (a b : GMap) : GMap :=
  (a.map fun kv =>
    match b.lookup kv.1 with
    | some v => (kv.1, v)
    | none => kv)
  ++ b.filter fun kv => (a.lookup kv.1).isNone

/-- The FASE 5 merge inside the summary branch of `extractAll3BReport`
(lines 86-99): spread the extra counters into each bureau map. -/
def mergeSummary (g : Grid3) (d : SummaryDetails3) : Grid3G :=
  { transunion := spreadG (injMap g.transunion) (countsEntries d.transunion)
    experian := spreadG (injMap g.experian) (countsEntries d.experian)
    equifax := spreadG (injMap g.equifax) (countsEntries d.equifax) }

/-- Outcomes of the awaited extractor calls `extractAll3BReport` makes
against one page, one field per call site. -/
structure Page where
  scoresCall : Except Unit (Option ScoresV)
  personalInfoCall : Except Unit (Option Grid3)
  summaryCall : Except Unit (Option Grid3)
  summaryDetailsCall : Except Unit (Option SummaryDetails3)
  accountHistoryCall : Except Unit (List RawAccount)
  publicRecordsCall : Except Unit (Option Counts3)
  inquiriesCall : Except Unit InquiriesResult
  creditorContactsCall : Except Unit (List FieldMap)

/-- A `try { x } catch { fallback }` around one awaited call. -/
def caught {α : Type} (x : Except Unit α) (fallback : α) : α :=
  match x with
  | .ok v => v
  | .error _ => fallback

/-- Pagination metadata stored under `accountHistoryPagination`. -/
structure PagMeta where
  total : Nat
  limit : Nat
  offset : Nat
  hasMore : Bool
deriving DecidableEq

/-- The `raw3BData` object assembled by `extractAll3BReport`: an outer `none`
means the key was never set (its section was not requested). -/
structure Raw3BData where
  scores : Option (Option ScoresV) := none
  personalInfo : Option (Option Grid3) := none
  summary : Option (Option Grid3G) := none
  accountHistory : Option (List RawAccount) := none
  accountHistoryPagination : Option PagMeta := none
  publicRecords : Option (Option Counts3) := none
  inquiries : Option (Option InquiriesResult) := none
  creditorContacts : Option (List FieldMap) := none
deriving DecidableEq

/-- The summary branch body (lines 78-101): the grid read, then the details
read, both inside one `try`; when both results are truthy the counters are
merged, otherwise the grid result stands. -/
def summarySeq (page : Page) : Except Unit (Option Grid3G) := do
  let g ← page.summaryCall
  let det ← page.summaryDetailsCall
  pure
    (match det, g with
     | some dt, some gg => some (mergeSummary gg dt)
     | _, _ => g.map injGrid)

/-- The body of `extractAccountHistoryPaginated` as invoked by the
orchestrator: its one awaited call is the full extraction, its `catch`
returns the empty failure record. -/
def pagFromCall (call : Except Unit (List RawAccount)) (opts : AHOptions) :
    PaginatedAccounts :=
  let limit := opts.limit.getD 20
  let offset := opts.offset.getD 0
  match call with
  | .ok allAccounts =>
      { accounts := (allAccounts.drop offset).take limit
        total := allAccounts.length
        hasMore := decide (offset + limit < allAccounts.length)
        limit := limit
        offset := offset }
  | .error _ =>
      { accounts := [], total := 0, hasMore := false, limit := limit, offset := offset }

/-- Embedding of `extractAll3BReport` (`extraction-service.js` lines 37-191):
a section is processed when `"all"` or its name was requested; every branch
assigns only its own key(s); each catch assigns the branch's failure value
(`null`, or `[]` for account history and creditor contacts). -/
def extractAll3BReport (page : Page) (sections : List String)
    (ahOpts : AHOptions) : Raw3BData :=
  let req := fun s => sections.contains "all" || sections.contains s
  let d0 : Raw3BData := {}
  let d1 :=
    if req "scores" then { d0 with scores := some (caught page.scoresCall none) } else d0
  let d2 :=
    if req "personalInfo" then
      { d1 with personalInfo := some (caught page.personalInfoCall none) }
    else d1
  let d3 :=
    if req "summary" then { d2 with summary := some (caught (summarySeq page) none) }
    else d2
  let d4 :=
    if req "accountHistory" then
      if ahOpts.limit.isSome then
        let pr := pagFromCall page.accountHistoryCall ahOpts
        { d3 with
            accountHistory := some pr.accounts
            accountHistoryPagination := some ⟨pr.total, pr.limit, pr.offset, pr.hasMore⟩ }
      else { d3 with accountHistory := some (caught page.accountHistoryCall []) }
    else d3
  let d5 :=
    if req "publicRecords" then
      { d4 with publicRecords := some (caught page.publicRecordsCall none) }
    else d4
  let d6 :=
    if req "inquiries" then
      { d5 with inquiries := some (caught (page.inquiriesCall.map some) none) }
    else d5
  let d7 :=
    if req "creditorContacts" then
      { d6 with creditorContacts := some (caught page.creditorContactsCall []) }
    else d6
  d7

/-! ## Report builder (`src/services/report-builder.js`)

`buildFullReport` consumes the orchestrator's raw data.  Where the JS checks
only truthiness of a section value, `undefined` (key never set) and `null`
(section failed) behave identically, so both are collapsed to `none` in
`BuilderRaw` — with the exception of `accountHistory` and `creditorContacts`,
whose failure value is the (truthy) empty array and is therefore kept as
`some []`.  A summary map may contain the merged numeric counters, and
`parseSummary` applies `cleanText` to map values, so the builder can in
principle throw; it is therefore `Except`-valued, with the report object as
an ordered association list mirroring the JS object literal. -/

/-- JS property read on a merged summary map (`undefined` when absent). -/
def mgetG (m : GMap) (k : String) : Option GVal :=
  m.lookup k

/-- Truthiness of a (possibly absent) summary-map value. -/
def gTruthy : Option GVal → Bool
  | some (.gstr (some s)) => s != ""
  | some (.gstr none) => false
  | some (.gnum n) => n != 0
  | none => false

/-- JS `a || b` on summary-map values. -/
def jsOrG (a b : Option GVal) : Option GVal :=
  if gTruthy a then a else b

/-- Behaviour of `extractNumber` on a summary-map value: a number passes
through, a string is parsed, `null`/`undefined` give `null`. -/
def extractNumberG : Option GVal → Option ℚ
  | some (.gstr v) => extractNumberS v
  | some (.gnum n) => some (n : ℚ)
  | none => none

/-- Behaviour of `cleanText` on a summary-map value: strings and falsy values
are handled; a truthy number reaches `.trim` and throws. -/
def cleanTextG : Option GVal → Except Unit (Option String)
  | some (.gstr v) => .ok (cleanTextS v)
  | some (.gnum n) => if n = 0 then .ok none else .error ()
  | none => .ok none

/-- Embedding of `parseSummary` (`parser.js` lines 189-202) at the type of
the maps its one call site actually passes (grid strings possibly merged with
numeric counters): numeric fields through `extractNumber` with the
snake_case/camelCase `||` fallback, `balances`/`payments` through
`cleanText`. -/
def parseSummary (m : GMap) : Except Unit SummaryB := do
  let balances ← cleanTextG (mgetG m "balances")
  let payments ← cleanTextG (mgetG m "payments")
  pure
    { total_accounts := extractNumberG (jsOrG (mgetG m "total_accounts") (mgetG m "totalAccounts"))
      open_accounts := extractNumberG (jsOrG (mgetG m "open_accounts") (mgetG m "openAccounts"))
      closed_accounts := extractNumberG (jsOrG (mgetG m "closed_accounts") (mgetG m "closedAccounts"))
      delinquent := extractNumberG (mgetG m "delinquent")
      derogatory := extractNumberG (mgetG m "derogatory")
      balances := balances
      payments := payments
      public_records := extractNumberG (mgetG m "publicRecords")
      inquiries_2years := extractNumberG (mgetG m "inquiries") }

/-- Embedding of `parse3BSummary` (`parser.js` lines 207-213). -/
def parse3BSummary (g : Grid3G) : Except Unit Summary3 := do
  let t ← parseSummary g.transunion
  let e ← parseSummary g.experian
  let q ← parseSummary g.equifax
  pure ⟨t, e, q⟩

/-- `ReportBuilder.cleanText` (`report-builder.js` lines 169-175): widens the
absence set with `'-'` and `'N/A'`, then delegates to the base `cleanText`.
Its inputs are raw extractor fields (string or `null`/`undefined`), on which
the function is total. -/
def RB_cleanText : Option String → Option String
  | none => none
  | some s => if s == "" || s == "-" || s == "N/A" then none else trimClean s

/-- `ReportBuilder.parseDate` (`report-builder.js` lines 183-190): `null` for
falsy, `'-'` and `'N/A'`, else the base `parseScoreDate`. -/
def RB_parseDate : Option String → Option String
  | none => none
  | some s => if s == "" || s == "-" || s == "N/A" then none else scoreDateCore s

/-- Result of `ReportBuilder.parseAccountFields`: the 22 account fields, five
of them date-parsed, the rest text-cleaned. -/
structure AccountFieldsB where
  account_number : Option String
  high_balance : Option String
  last_verified : Option String
  date_last_activity : Option String
  date_reported : Option String
  date_opened : Option String
  balance_owed : Option String
  closed_date : Option String
  account_rating : Option String
  account_description : Option String
  dispute_status : Option String
  creditor_type : Option String
  account_status : Option String
  payment_status : Option String
  creditor_remarks : Option String
  payment_amount : Option String
  last_payment : Option String
  term_length : Option String
  past_due_amount : Option String
  account_type : Option String
  payment_frequency : Option String
  credit_limit : Option String
deriving DecidableEq

/-- Embedding of `ReportBuilder.parseAccountFields` (`report-builder.js`
lines 131-160). -/
def RB_parseAccountFields (rawFields : Option FieldMap) : Option AccountFieldsB :=
  match rawFields with
  | none => none
  | some m =>
      some
        { account_number := RB_cleanText (mget m "account_number")
          high_balance := RB_cleanText (mget m "high_balance")
          last_verified := RB_parseDate (mget m "last_verified")
          date_last_activity := RB_parseDate (mget m "date_last_activity")
          date_reported := RB_parseDate (mget m "date_reported")
          date_opened := RB_parseDate (mget m "date_opened")
          balance_owed := RB_cleanText (mget m "balance_owed")
          closed_date := RB_parseDate (mget m "closed_date")
          account_rating := RB_cleanText (mget m "account_rating")
          account_description := RB_cleanText (mget m "account_description")
          dispute_status := RB_cleanText (mget m "dispute_status")
          creditor_type := RB_cleanText (mget m "creditor_type")
          account_status := RB_cleanText (mget m "account_status")
          payment_status := RB_cleanText (mget m "payment_status")
          creditor_remarks := RB_cleanText (mget m "creditor_remarks")
          payment_amount := RB_cleanText (mget m "payment_amount")
          last_payment := RB_parseDate (mget m "last_payment")
          term_length := RB_cleanText (mget m "term_length")
          past_due_amount := RB_cleanText (mget m "past_due_amount")
          account_type := RB_cleanText (mget m "account_type")
          payment_frequency := RB_cleanText (mget m "payment_frequency")
          credit_limit := RB_cleanText (mget m "credit_limit") }

/-- One parsed account in the final report. -/
structure ParsedAccount where
  account_name : Option String
  transunion : Option AccountFieldsB
  experian : Option AccountFieldsB
  equifax : Option AccountFieldsB
  payment_history : Option PaymentHistory3
  days_late : Option DaysLate3
deriving DecidableEq

/-- Embedding of `ReportBuilder.parseAccountHistory` (`report-builder.js`
lines 103-123): empty input maps to `[]`; each account is transformed
independently (the per-account `try`/`catch` has nothing to catch here: every
operation involved is total on raw extractor values); `payment_history` and
`days_late` pass through with an `|| null` that is the identity on these
values. -/
def RB_parseAccountHistory (rawAccounts : List RawAccount) : List ParsedAccount :=
  if rawAccounts.isEmpty then []
  else
    rawAccounts.map fun account =>
      { account_name := RB_cleanText account.account_name
        transunion := RB_parseAccountFields account.transunion
        experian := RB_parseAccountFields account.experian
        equifax := RB_parseAccountFields account.equifax
        payment_history := account.payment_history
        days_late := account.days_late }

/-! ### Encoding report sections as JSON values -/

/-- Encode an integer-or-null field. -/
def joptZ : Option ℤ → JVal
  | none => .jnull
  | some n => .jnum (n : ℚ)

/-- Encode a raw field map (used for creditor contacts). -/
def jFieldMap (m : FieldMap) : JVal :=
  .jobj (m.map fun kv => (kv.1, jopt kv.2))

/-- Encode the scores triple. -/
def encScores (s : ScoresV) : JVal :=
  .jobj
    [("transunion", joptZ s.transunion),
     ("experian", joptZ s.experian),
     ("equifax", joptZ s.equifax)]

/-- Encode one bureau's parsed personal information. -/
def encPersonalInfoB (p : PersonalInfoB) : JVal :=
  .jobj
    [("credit_report_date", jopt p.credit_report_date),
     ("name", jopt p.name),
     ("date_of_birth", jopt p.date_of_birth),
     ("current_address", jopt p.current_address),
     ("previous_address", jopt p.previous_address),
     ("employer", jopt p.employer)]

/-- Encode the personal-information triple. -/
def encPersonalInfo3 (p : PersonalInfo3) : JVal :=
  .jobj
    [("transunion", encPersonalInfoB p.transunion),
     ("experian", encPersonalInfoB p.experian),
     ("equifax", encPersonalInfoB p.equifax)]

/-- Encode one bureau's parsed summary. -/
def encSummaryB (s : SummaryB) : JVal :=
  .jobj
    [("total_accounts", joptQ s.total_accounts),
     ("open_accounts", joptQ s.open_accounts),
     ("closed_accounts", joptQ s.closed_accounts),
     ("delinquent", joptQ s.delinquent),
     ("derogatory", joptQ s.derogatory),
     ("balances", jopt s.balances),
     ("payments", jopt s.payments),
     ("public_records", joptQ s.public_records),
     ("inquiries_2years", joptQ s.inquiries_2years)]

/-- Encode the summary triple. -/
def encSummary3 (s : Summary3) : JVal :=
  .jobj
    [("transunion", encSummaryB s.transunion),
     ("experian", encSummaryB s.experian),
     ("equifax", encSummaryB s.equifax)]

/-- Encode one month entry. -/
def encMonthEntry (m : MonthEntry) : JVal :=
  .jobj
    [("month", .jstr m.month),
     ("status", .jstr m.status),
     ("status_class", .jstr m.status_class)]

/-- Encode the payment-history triple. -/
def encPaymentHistory3 (p : PaymentHistory3) : JVal :=
  .jobj
    [("transunion", .jarr (p.transunion.map encMonthEntry)),
     ("experian", .jarr (p.experian.map encMonthEntry)),
     ("equifax", .jarr (p.equifax.map encMonthEntry))]

/-- Encode one bureau's days-late buckets. -/
def encDaysLateB (d : DaysLateB) : JVal :=
  .jobj [("30", jopt d.d30), ("60", jopt d.d60), ("90", jopt d.d90)]

/-- Encode the days-late triple. -/
def encDaysLate3 (d : DaysLate3) : JVal :=
  .jobj
    [("transunion", encDaysLateB d.transunion),
     ("experian", encDaysLateB d.experian),
     ("equifax", encDaysLateB d.equifax)]

/-- Encode one bureau's parsed account fields. -/
def encAccountFieldsB (a : AccountFieldsB) : JVal :=
  .jobj
    [("account_number", jopt a.account_number),
     ("high_balance", jopt a.high_balance),
     ("last_verified", jopt a.last_verified),
     ("date_last_activity", jopt a.date_last_activity),
     ("date_reported", jopt a.date_reported),
     ("date_opened", jopt a.date_opened),
     ("balance_owed", jopt a.balance_owed),
     ("closed_date", jopt a.closed_date),
     ("account_rating", jopt a.account_rating),
     ("account_description", jopt a.account_description),
     ("dispute_status", jopt a.dispute_status),
     ("creditor_type", jopt a.creditor_type),
     ("account_status", jopt a.account_status),
     ("payment_status", jopt a.payment_status),
     ("creditor_remarks", jopt a.creditor_remarks),
     ("payment_amount", jopt a.payment_amount),
     ("last_payment", jopt a.last_payment),
     ("term_length", jopt a.term_length),
     ("past_due_amount", jopt a.past_due_amount),
     ("account_type", jopt a.account_type),
     ("payment_frequency", jopt a.payment_frequency),
     ("credit_limit", jopt a.credit_limit)]

/-- Encode an optional object-valued field. -/
def jOptWith {α : Type} (f : α → JVal) : Option α → JVal
  | none => .jnull
  | some a => f a

/-- Encode one parsed account. -/
def encParsedAccount (a : ParsedAccount) : JVal :=
  .jobj
    [("account_name", jopt a.account_name),
     ("transunion", jOptWith encAccountFieldsB a.transunion),
     ("experian", jOptWith encAccountFieldsB a.experian),
     ("equifax", jOptWith encAccountFieldsB a.equifax),
     ("payment_history", jOptWith encPaymentHistory3 a.payment_history),
     ("days_late", jOptWith encDaysLate3 a.days_late)]

/-- Encode the public-records counters. -/
def encCounts3 (c : Counts3) : JVal :=
  .jobj
    [("transunion", .jnum (c.transunion : ℚ)),
     ("experian", .jnum (c.experian : ℚ)),
     ("equifax", .jnum (c.equifax : ℚ))]

/-- Encode one inquiry row. -/
def encInquiryRow (r : InquiryRow) : JVal :=
  .jobj
    [("creditor_name", jopt r.creditor_name),
     ("inquiry_date", jopt r.inquiry_date),
     ("credit_bureau", jopt r.credit_bureau)]

/-- Encode the compound inquiries result. -/
def encInquiries (i : InquiriesResult) : JVal :=
  .jobj
    [("count", jOptWith encCounts3 i.count),
     ("details", .jarr (i.details.map encInquiryRow))]

/-- Encode the pagination metadata. -/
def encPagMeta (p : PagMeta) : JVal :=
  .jobj
    [("total", .jnum (p.total : ℚ)),
     ("limit", .jnum (p.limit : ℚ)),
     ("offset", .jnum (p.offset : ℚ)),
     ("hasMore", .jbool p.hasMore)]

/-- The `rawData` object handed to `buildFullReport`.  `none` covers both an
absent key and `null` (indistinguishable to the builder's truthiness checks);
the account-history and creditor-contacts failure values are the truthy
`some []`. -/
structure BuilderRaw where
  dashboardScores : Option DashboardRaw := none
  scores : Option ScoresV := none
  personalInfo : Option Grid3 := none
  summary : Option Grid3G := none
  accountHistory : Option (List RawAccount) := none
  publicRecords : Option Counts3 := none
  inquiries : Option InquiriesResult := none
  creditorContacts : Option (List FieldMap) := none
  accountHistoryPagination : Option PagMeta := none

/-- Options of `buildFullReport`. -/
structure BuildOptions where
  includeDashboard : Bool := false
deriving DecidableEq

/-- The `dashboard_summary` field initializer of `buildFullReport`
(lines 39-41): built only when the option is set and the raw scores are
truthy, and itself clock-dependent through `buildCreditScoreData`. -/
def dashboardField (raw : BuilderRaw) (opts : BuildOptions) (now : String) : JVal :=
  if opts.includeDashboard then
    match raw.dashboardScores with
    | some d => buildCreditScoreData d now
    | none => .jnull
  else .jnull

/-- Embedding of `ReportBuilder.buildFullReport` (`report-builder.js` lines
32-83): the report object literal in source order, every section key always
written (`null` for a falsy section value), `scraped_at` from the clock
(passed as `now`, also forwarded to the nested dashboard build), and the
pagination key appended afterwards only when pagination metadata exists. -/
def buildFullReport (raw : BuilderRaw) (opts : BuildOptions) (now : String) :
    Except Unit (List (String × JVal)) := do
  let summary3 : Option Summary3 ←
    match raw.summary with
    | some g => Except.map some (parse3BSummary g)
    | none => pure none
  pure
    ([("dashboard_summary", dashboardField raw opts now),
      ("credit_scores_3b", jOptWith encScores raw.scores),
      ("personal_information",
        jOptWith (fun g => encPersonalInfo3 (parse3BPersonalInfo g)) raw.personalInfo),
      ("summary", jOptWith encSummary3 summary3),
      ("account_history",
        jOptWith (fun l => .jarr ((RB_parseAccountHistory l).map encParsedAccount))
          raw.accountHistory),
      ("public_records", jOptWith encCounts3 raw.publicRecords),
      ("inquiries", jOptWith encInquiries raw.inquiries),
      ("creditor_contacts",
        jOptWith (fun l => .jarr (l.map jFieldMap)) raw.creditorContacts),
      ("scraped_at", .jstr now)]
     ++
     match raw.accountHistoryPagination with
     | some p => [("account_history_pagination", encPagMeta p)]
     | none => [])

/-! ## Claim-support definitions: shapes and concrete test documents -/

/-- Padding characters in the amended `extractNumber` statement: characters
that the `replace` step removes (everything outside `[0-9.+-]`). -/
def nonNumChar (c : Char) : Bool :=
  !(keptChar c)

/-- Characters of an optional sign: `none` for no sign, `some false` for `+`,
`some true` for `-`. -/
def signChars : Option Bool → List Char
  | none => []
  | some false => ['+']
  | some true => ['-']

/-- Numeric value of an optional sign. -/
def signVal : Option Bool → ℚ
  | some true => -1
  | _ => 1

/-- Characters of an optional decimal part. -/
def fracChars : Option (List Char) → List Char
  | none => []
  | some l => '.' :: l

/-- Decimal value of a sign, an integer digit group and an optional
fractional digit group. -/
def numValue (sgn : Option Bool) (ds : List Char) (fs : Option (List Char)) : ℚ :=
  signVal sgn *
    ((digitsToNat ds : ℚ) + (digitsToNat (fs.getD []) : ℚ) / 10 ^ (fs.getD []).length)

/-- Normal termination of a modelled JS call. -/
def retOk {α : Type} : Except Unit α → Prop
  | .ok _ => True
  | .error _ => False

/-- An account container whose grid precondition holds (grid present with at
least four column groups), so the extractor emits the account. -/
def goodGrid (c : AccountContainer) : Prop :=
  ∃ g, c.grid = some g ∧ 4 ≤ g.bureauColumns.length

/-- What the account extractor emits for one container: the display name with
its `Unknown Account <idx+1>` fallback, the three bureau maps read from the
grid, and the two optional substructures from their own extractors. -/
def accountOK (fields : List String) (idx : Nat) (c : AccountContainer)
    (a : RawAccount) : Prop :=
  a.account_name = some (jsTrimOr c.nameText ("Unknown Account " ++ toString (idx + 1))) ∧
  (∀ g, c.grid = some g →
    a.transunion = some (extractAccountBureau fields g.bureauColumns 1) ∧
    a.experian = some (extractAccountBureau fields g.bureauColumns 2) ∧
    a.equifax = some (extractAccountBureau fields g.bureauColumns 3)) ∧
  a.payment_history = extractPaymentHistory c ∧
  a.days_late = extractDaysLate c

/-- A one-section document whose section carries the `Account History`
heading and the given containers. -/
def mkAHDoc (cs : List AccountContainer) : AHDoc :=
  ⟨[⟨some "Account History", cs⟩]⟩

/-- A well-formed payment-history container with three bureau blocks. -/
def phGood : PHContainer :=
  ⟨[⟨some []⟩, ⟨some []⟩, ⟨some []⟩]⟩

/-- A malformed payment-history container: only one bureau block where three
are required. -/
def phBad : PHContainer :=
  ⟨[⟨some []⟩]⟩

/-- A minimal account grid satisfying the four-column precondition. -/
def acctGrid4 : AccountGrid :=
  ⟨[["h"], ["h"], ["h"], ["h"]]⟩

/-- Test account container A (well-formed payment history). -/
def cAccA : AccountContainer :=
  ⟨some "CARD A", some acctGrid4, some phGood, none⟩

/-- Test account container B (malformed payment history). -/
def cAccB : AccountContainer :=
  ⟨some "CARD B", some acctGrid4, some phBad, none⟩

/-- Test account container C (well-formed payment history). -/
def cAccC : AccountContainer :=
  ⟨some "CARD C", some acctGrid4, some phGood, none⟩

/-- A minimal emittable account container for the pagination scenario. -/
def goodAcct : AccountContainer :=
  ⟨some "A", some acctGrid4, none, none⟩

/-- A document with 34 extractable accounts. -/
def ahDoc34 : AHDoc :=
  mkAHDoc (List.replicate 34 goodAcct)

/-- The single-field grid config of the end-to-end scenario. -/
def gridCfg1 : GridConfig :=
  ⟨0, 0, ["transunion_field"]⟩

/-- The grid document exactly as the claim describes it: four column groups,
bureau-1 column with cell list `["770"]`. -/
def gridDocClaim : GridDoc :=
  ⟨[⟨[⟨[["Label"], ["770"], ["790"], ["789"]]⟩]⟩]⟩

/-- The grid document with a header cell before each bureau value, the shape
the extractor actually consumes. -/
def gridDocAmended : GridDoc :=
  ⟨[⟨[⟨[["Label", "Field"], ["TransUnion", "770"], ["Experian", "790"],
        ["Equifax", "789"]]⟩]⟩]⟩

/-- A grid with five column groups (each column non-empty). -/
def gridDoc5 : GridDoc :=
  ⟨[⟨[⟨[["L", "f"], ["T", "770"], ["E", "x"], ["Q", "y"], ["Z", "z"]]⟩]⟩]⟩

/-- The eight top-level report keys named by the schema-stability claim. -/
def reportKeys : List String :=
  ["credit_scores_3b", "personal_information", "summary", "account_history",
   "public_records", "inquiries", "creditor_contacts", "scraped_at"]

/-- A page on which only the account-history extractor call fails. -/
def pageAHFail : Page where
  scoresCall := .ok none
  personalInfoCall := .ok none
  summaryCall := .ok none
  summaryDetailsCall := .ok none
  accountHistoryCall := .error ()
  publicRecordsCall := .ok none
  inquiriesCall := .ok ⟨none, []⟩
  creditorContactsCall := .ok []

/-- Raw builder input carrying (empty) dashboard scores, used to exhibit the
clock dependence of the dashboard section. -/
def rawDash : BuilderRaw :=
  { dashboardScores := some ⟨none, none, none, none, none, none, none, none, none⟩ }

deriving instance DecidableEq for Except

/-! ## Theorems -/

/-- The restriction `cleanTextS` agrees with the full `cleanText` model. -/
theorem cleanText_on_field (v : Option String) :
    cleanText (match v with | none => .vnull | some s => .vstr s) =
      .ok (cleanTextS v) := by
  cases v with
  | none => rfl
  | some s =>
      simp only [cleanText, cleanTextS, jsFalsy]
      by_cases h : s == ""
      · simp [h]
      · simp [h]

/-- The restriction `extractNumberS` agrees with the full `extractNumber`. -/
theorem extractNumber_on_field (v : Option String) :
    extractNumber (match v with | none => .vnull | some s => .vstr s) =
      extractNumberS v := by
  cases v with
  | none => rfl
  | some s => simp [extractNumber, extractNumberS]

/-- C10 (confirmed): the Report Builder's account-history transforms treat
`""`, `"-"`, `"N/A"`, `"--"` and `null`/`undefined` as absent (returning
null), with `"-"` and `"N/A"` a widening over the base `cleanText`, which
keeps them and only treats `""` and `"--"` as absent. -/
theorem rb_widened_absence_set :
    (RB_cleanText none = none ∧ RB_cleanText (some "") = none ∧
     RB_cleanText (some "-") = none ∧ RB_cleanText (some "N/A") = none ∧
     RB_cleanText (some "--") = none) ∧
    (RB_parseDate none = none ∧ RB_parseDate (some "") = none ∧
     RB_parseDate (some "-") = none ∧ RB_parseDate (some "N/A") = none ∧
     RB_parseDate (some "--") = none) ∧
    (cleanText (.vstr "-") = .ok (some "-") ∧
     cleanText (.vstr "N/A") = .ok (some "N/A") ∧
     cleanText (.vstr "--") = .ok none ∧ cleanText (.vstr "") = .ok none) := by
  decide

/-- Counterexample for C3: on the document exactly as claimed (bureau-1
column cell list `["770"]`), the extractor skips the single cell as the
header and maps the configured field to null, not `"770"`. -/
theorem gridExtractor_claim_shape_counterexample :
    extractGridData gridDocClaim gridCfg1 =
      some ⟨[("transunion_field", none)], [("transunion_field", none)],
            [("transunion_field", none)]⟩ ∧
    [("transunion_field", (none : Option String))] ≠ [("transunion_field", some "770")] := by
  decide

/-- C3 (corrected): with a header cell before each bureau value (so bureau-1
cells after the header are `["770"]`), the end-to-end grid scenario holds,
and `parse3BScores` numerifies the scores triple as claimed. -/
theorem gridExtractor_end_to_end :
    extractGridData gridDocAmended gridCfg1 =
      some ⟨[("transunion_field", some "770")], [("transunion_field", some "790")],
            [("transunion_field", some "789")]⟩ ∧
    parse3BScores ⟨.vstr "770", .vstr "790", .vstr "789"⟩ =
      (some 770, some 790, some 789) := by
  constructor
  · decide
  · have h1 : extractNumber (JSVal.vstr "770") = some ((1 : ℚ) * ((770 : ℕ) : ℚ)) := rfl
    have h2 : extractNumber (JSVal.vstr "790") = some ((1 : ℚ) * ((790 : ℕ) : ℚ)) := rfl
    have h3 : extractNumber (JSVal.vstr "789") = some ((1 : ℚ) * ((789 : ℕ) : ℚ)) := rfl
    unfold parse3BScores
    rw [h1, h2, h3]
    norm_num

/-- Counterexample for C4: a grid with five column groups does not have
exactly four, yet `extractGridData` succeeds — the code only rejects fewer
than four column groups. -/
theorem gridExtractor_five_columns_counterexample :
    extractGridData gridDoc5 gridCfg1 ≠ none ∧
    ((gridDoc5.sections.getD 0 ⟨[]⟩).grids.getD 0 ⟨[]⟩).columns.length = 5 := by
  decide


/-- Lists whose members all satisfy a predicate pass through `takeWhile`. -/
theorem takeWhile_all {p : Char → Bool} :
    ∀ {l1 : List Char} (l2 : List Char), (∀ a ∈ l1, p a = true) →
      (l1 ++ l2).takeWhile p = l1 ++ l2.takeWhile p := by
  intro l1
  induction l1 with
  | nil => intro l2 _; simp
  | cons a t ih =>
      intro l2 h
      simp only [List.cons_append, List.takeWhile_cons]
      rw [h a (by simp)]
      simp only [if_true]
      rw [ih l2 (fun b hb => h b (by simp [hb]))]

/-- Sign splitting on a sign-prefixed digit-headed remainder. -/
theorem splitSign_signChars (sgn : Option Bool) (r : List Char)
    (h : ∀ c, r.head? = some c → c.isDigit ∨ c = '.') :
    splitSign (signChars sgn ++ r) = (signVal sgn, r) := by
  cases sgn with
  | none =>
      cases r with
      | nil => rfl
      | cons c t =>
          have hc := h c rfl
          have h1 : c ≠ '+' := by
            rcases hc with hd | hd
            · intro he; rw [he] at hd; exact absurd hd (by decide)
            · intro he; rw [he] at hd; exact absurd hd (by decide)
          have h2 : c ≠ '-' := by
            rcases hc with hd | hd
            · intro he; rw [he] at hd; exact absurd hd (by decide)
            · intro he; rw [he] at hd; exact absurd hd (by decide)
          simp [splitSign, signChars, signVal, h1, h2]
  | some b =>
      cases b <;> simp [splitSign, signChars, signVal]

/-- `jsParseFloat` on a well-formed numeric token. -/
theorem jsParseFloat_token (sgn : Option Bool) (ds : List Char)
    (fs : Option (List Char)) (hne : ds ≠ [])
    (hds : ∀ c ∈ ds, c.isDigit) (hfs : ∀ l, fs = some l → ∀ c ∈ l, c.isDigit) :
    jsParseFloat (signChars sgn ++ (ds ++ fracChars fs)) = some (numValue sgn ds fs) := by
  have hhead : ∀ c, (ds ++ fracChars fs).head? = some c → c.isDigit ∨ c = '.' := by
    intro c hc
    cases ds with
    | nil => exact absurd rfl hne
    | cons d t =>
        simp only [List.cons_append, List.head?_cons, Option.some.injEq] at hc
        subst hc
        exact Or.inl (hds d (by simp))
  unfold jsParseFloat
  rw [splitSign_signChars sgn _ hhead]
  simp only []
  cases fs with
  | none =>
      simp only [fracChars, List.append_nil]
      have ht : ds.takeWhile Char.isDigit = ds := by
        have := @takeWhile_all Char.isDigit ds [] hds
        simpa using this
      rw [ht]
      rw [List.drop_length]
      simp only [List.isEmpty_iff]
      rw [if_neg hne]
      simp [numValue, digitsToNat]
  | some l =>
      have ht : (ds ++ fracChars (some l)).takeWhile Char.isDigit
          = ds ++ ([] : List Char) := by
        rw [takeWhile_all (fracChars (some l)) hds]
        simp [fracChars, List.takeWhile_cons]
      rw [ht]
      simp only [List.append_nil]
      have hd : (ds ++ fracChars (some l)).drop ds.length = fracChars (some l) :=
        List.drop_left ds _
      rw [hd]
      simp only [fracChars]
      have hfl : l.takeWhile Char.isDigit = l := by
        have := @takeWhile_all Char.isDigit l [] (hfs l rfl)
        simpa using this
      rw [hfl]
      have : (ds.isEmpty && l.isEmpty) = false := by
        cases ds with
        | nil => exact absurd rfl hne
        | cons d t => rfl
      rw [this]
      simp [numValue]

/-- The `replace` step of `extractNumber` erases padding and keeps a token
whose characters are all in the kept class. -/
theorem jsCleanNum_embedded (pre post : String) (core : List Char)
    (hpre : ∀ c ∈ pre.data, nonNumChar c = true)
    (hpost : ∀ c ∈ post.data, nonNumChar c = true)
    (hcore : ∀ c ∈ core, keptChar c = true) :
    jsCleanNum (pre ++ String.mk core ++ post) = core := by
  unfold jsCleanNum
  have hdata : (pre ++ String.mk core ++ post).data = pre.data ++ core ++ post.data := by
    rw [String.data_append, String.data_append]
  rw [hdata, List.filter_append, List.filter_append]
  rw [List.filter_eq_self.mpr hcore]
  rw [List.filter_eq_nil_iff.mpr (fun c (hc : c ∈ pre.data) => by
        have := hpre c hc
        simp only [nonNumChar, Bool.not_eq_true'] at this
        simp [this])]
  rw [List.filter_eq_nil_iff.mpr (fun c (hc : c ∈ post.data) => by
        have := hpost c hc
        simp only [nonNumChar, Bool.not_eq_true'] at this
        simp [this])]
  simp

/-- `extractNumber` on a numeric token embedded in strippable padding. -/
theorem extractNumber_embedded (pre post : String) (sgn : Option Bool)
    (ds : List Char) (fs : Option (List Char)) (hne : ds ≠ [])
    (hds : ∀ c ∈ ds, c.isDigit)
    (hfs : ∀ l, fs = some l → ∀ c ∈ l, c.isDigit)
    (hpre : ∀ c ∈ pre.data, nonNumChar c = true)
    (hpost : ∀ c ∈ post.data, nonNumChar c = true) :
    extractNumber
        (.vstr (pre ++ String.mk (signChars sgn ++ (ds ++ fracChars fs)) ++ post))
      = some (numValue sgn ds fs) := by
  have hcore : ∀ c ∈ signChars sgn ++ (ds ++ fracChars fs), keptChar c = true := by
    intro c hc
    rcases List.mem_append.mp hc with h1 | h2
    · cases sgn with
      | none => cases h1
      | some b => cases b <;> simp only [signChars, List.mem_singleton] at h1 <;>
          rw [h1] <;> decide
    · rcases List.mem_append.mp h2 with h3 | h4
      · have := hds c h3
        simp [keptChar, this]
      · cases fs with
        | none => cases h4
        | some l =>
            simp only [fracChars] at h4
            rcases List.mem_cons.mp h4 with h5 | h5
            · rw [h5]; decide
            · have := hfs l rfl c h5
              simp [keptChar, this]
  have hnonempty :
      (pre ++ String.mk (signChars sgn ++ (ds ++ fracChars fs)) ++ post) ≠ "" := by
    intro he
    have hd := congrArg String.data he
    rw [String.data_append, String.data_append] at hd
    have hlen := congrArg List.length hd
    cases ds with
    | nil => exact hne rfl
    | cons d t =>
        simp only [String.mk, List.length_append, List.length_cons] at hlen
        simp at hlen
  simp only [extractNumber]
  rw [if_neg (by simpa using hnonempty)]
  rw [jsCleanNum_embedded _ _ _ hpre hpost hcore]
  exact jsParseFloat_token sgn ds fs hne hds hfs

/-- C5 counterexample: `"v.34"` embeds the digits `34` in the non-digit
padding `"v."`, yet `extractNumber` returns `0.34`, because the dot of the
padding survives the `replace` step and is parsed as a decimal point. -/
theorem extractNumber_padding_counterexample :
    extractNumber (.vstr "v.34") = some (0.34 : ℚ) ∧ (0.34 : ℚ) ≠ 34 ∧
    (∀ c ∈ "v.".data, !c.isDigit) := by
  refine ⟨?_, by norm_num, by decide⟩
  have h : extractNumber (.vstr "v.34")
      = some (1 * (((0 : ℕ) : ℚ) + ((34 : ℕ) : ℚ) / 10 ^ 2)) := rfl
  rw [h]
  norm_num

/-- C5 (corrected): `extractNumber` on a numeric token `sign? digits
(. digits)?` embedded in padding made of characters the `replace` step strips
(everything outside `[0-9.+-]`) yields the token's value; `extractNumber(NaN)`
and `extractNumber("")` are `null`; the number `34` passes through; and the
three documented examples parse as stated.  The original claim's
"arbitrary non-digit padding" fails because `.`, `+` and `-` padding
survives the strip (see the counterexample). -/
theorem extractNumber_spec :
    (∀ (pre post : String) (sgn : Option Bool) (ds : List Char)
        (fs : Option (List Char)), ds ≠ [] → (∀ c ∈ ds, c.isDigit) →
        (∀ l, fs = some l → ∀ c ∈ l, c.isDigit) →
        (∀ c ∈ pre.data, nonNumChar c = true) →
        (∀ c ∈ post.data, nonNumChar c = true) →
        extractNumber
            (.vstr (pre ++ String.mk (signChars sgn ++ (ds ++ fracChars fs)) ++ post))
          = some (numValue sgn ds fs)) ∧
    extractNumber .vnan = none ∧
    extractNumber (.vstr "") = none ∧
    extractNumber (.vnum 34) = some 34 ∧
    extractNumber (.vstr "+34 pts") = some 34 ∧
    extractNumber (.vstr "-168 pts") = some (-168) ∧
    extractNumber (.vstr "$652.05") = some (652.05 : ℚ) := by
  refine ⟨extractNumber_embedded, rfl, rfl, rfl, ?_, ?_, ?_⟩
  · have h : extractNumber (.vstr "+34 pts") = some (1 * ((34 : ℕ) : ℚ)) := rfl
    rw [h]; norm_num
  · have h : extractNumber (.vstr "-168 pts") = some (-1 * ((168 : ℕ) : ℚ)) := rfl
    rw [h]; norm_num
  · have h : extractNumber (.vstr "$652.05")
        = some (1 * (((652 : ℕ) : ℚ) + ((5 : ℕ) : ℚ) / 10 ^ 2)) := rfl
    rw [h]; norm_num

/-- Witness for C5: the embedded-token part applied at `"$652.05"`. -/
theorem extractNumber_spec_witness :
    extractNumber (.vstr "$652.05") = some (numValue none ['6','5','2'] (some ['0','5'])) := by
  have h := extractNumber_spec.1 "$" "" none ['6','5','2'] (some ['0','5'])
    (by decide) (by decide)
    (fun l hl => by cases hl; decide)
    (by decide) (by decide)
  have hs : ("$" ++ String.mk (signChars none ++ (['6','5','2'] ++ fracChars (some ['0','5']))) ++ "")
      = "$652.05" := by decide
  rw [hs] at h
  exact h

/-- C9 counterexample: a truthy non-string input (the number 5) reaches a
string method and throws in `cleanText` and `parseScoreDate`. -/
theorem transform_throws_counterexample :
    cleanText (.vnum 5) = .error () ∧ parseScoreDate (.vnum 5) = .error () ∧
    parseScoreProgress (.vnum 5) = .error () ∧
    parseBoostPotential (.vnum 5) = .error () ∧
    parseScoreBoost (.vnum 5) = .error () := by
  refine ⟨rfl, rfl, rfl, rfl, rfl⟩

/-- C9 (corrected): the transform functions return normally on every string
input and every falsy input, and `extractNumber` is total on all inputs
(its embedding is `Option`-valued because no operation in its body can
throw); but a truthy non-string input reaches a string method (`.trim` or
`.match`) in the other five functions and throws a `TypeError`, so the
original all-inputs totality claim fails. -/
theorem transformLibrary_totality :
    (∀ s : String,
      retOk (cleanText (.vstr s)) ∧ retOk (parseScoreDate (.vstr s)) ∧
      retOk (parseScoreProgress (.vstr s)) ∧ retOk (parseBoostPotential (.vstr s)) ∧
      retOk (parseScoreBoost (.vstr s))) ∧
    (∀ v : JSVal, jsFalsy v = true →
      retOk (cleanText v) ∧ retOk (parseScoreDate v) ∧ retOk (parseScoreProgress v) ∧
      retOk (parseBoostPotential v) ∧ retOk (parseScoreBoost v)) ∧
    (∀ v : JSVal, jsFalsy v = false → (∀ s, v ≠ .vstr s) →
      cleanText v = .error () ∧ parseScoreDate v = .error () ∧
      parseScoreProgress v = .error () ∧ parseBoostPotential v = .error () ∧
      parseScoreBoost v = .error ()) ∧
    (∀ v : JSVal, (extractNumber v).isSome ∨ extractNumber v = none) := by
  refine ⟨?_, ?_, ?_, ?_⟩
  · intro s
    by_cases h : jsFalsy (.vstr s) = true <;>
      refine ⟨?_, ?_, ?_, ?_, ?_⟩ <;>
        simp [cleanText, parseScoreDate, parseScoreProgress, parseBoostPotential,
          parseScoreBoost, h, retOk]
  · intro v h
    refine ⟨?_, ?_, ?_, ?_, ?_⟩ <;>
      simp [cleanText, parseScoreDate, parseScoreProgress, parseBoostPotential,
        parseScoreBoost, h, retOk]
  · intro v hf hns
    cases v with
    | vnull => simp [jsFalsy] at hf
    | vundef => simp [jsFalsy] at hf
    | vnan => simp [jsFalsy] at hf
    | vstr s => exact absurd rfl (hns s)
    | vnum q =>
        refine ⟨?_, ?_, ?_, ?_, ?_⟩ <;>
          simp [cleanText, parseScoreDate, parseScoreProgress, parseBoostPotential,
            parseScoreBoost, hf]
    | vbool b =>
        refine ⟨?_, ?_, ?_, ?_, ?_⟩ <;>
          simp [cleanText, parseScoreDate, parseScoreProgress, parseBoostPotential,
            parseScoreBoost, hf]
  · intro v
    cases extractNumber v with
    | none => exact Or.inr rfl
    | some q => exact Or.inl rfl

/-- Witness for C9: a string input returns normally, and a truthy
non-string input throws. -/
theorem transformLibrary_totality_witness :
    retOk (cleanText (.vstr "abc")) ∧ parseScoreDate (.vnum 5) = .error () := by
  refine ⟨(transformLibrary_totality.1 "abc").1, ?_⟩
  exact (transformLibrary_totality.2.2.1 (.vnum 5) (by decide)
    (fun s h => JSVal.noConfusion h)).2.1

/-- C1 (confirmed): section isolation in the orchestrator.  Every requested
section's key holds a value computed from that section's own call outcome
alone — the caught value on success, and the section's failure value
(`null`, or the empty list for account history and creditor contacts) when
its call throws — and unrequested sections stay absent.  In particular one
section's failure never changes any other section's result, and no failure
aborts the run. -/
theorem extractAll3BReport_isolation (page : Page) (sections : List String)
    (ahOpts : AHOptions) :
    (extractAll3BReport page sections ahOpts).scores
      = (if sections.contains "all" || sections.contains "scores"
         then some (caught page.scoresCall none) else none) ∧
    (extractAll3BReport page sections ahOpts).personalInfo
      = (if sections.contains "all" || sections.contains "personalInfo"
         then some (caught page.personalInfoCall none) else none) ∧
    (extractAll3BReport page sections ahOpts).summary
      = (if sections.contains "all" || sections.contains "summary"
         then some (caught (summarySeq page) none) else none) ∧
    (extractAll3BReport page sections ahOpts).accountHistory
      = (if sections.contains "all" || sections.contains "accountHistory"
         then (if ahOpts.limit.isSome
               then some (pagFromCall page.accountHistoryCall ahOpts).accounts
               else some (caught page.accountHistoryCall []))
         else none) ∧
    (extractAll3BReport page sections ahOpts).publicRecords
      = (if sections.contains "all" || sections.contains "publicRecords"
         then some (caught page.publicRecordsCall none) else none) ∧
    (extractAll3BReport page sections ahOpts).inquiries
      = (if sections.contains "all" || sections.contains "inquiries"
         then some (caught (page.inquiriesCall.map some) none) else none) ∧
    (extractAll3BReport page sections ahOpts).creditorContacts
      = (if sections.contains "all" || sections.contains "creditorContacts"
         then some (caught page.creditorContactsCall []) else none) := by
  refine ⟨?_, ?_, ?_, ?_, ?_, ?_, ?_⟩ <;>
    (unfold extractAll3BReport
     simp only [apply_ite Raw3BData.scores, apply_ite Raw3BData.personalInfo,
       apply_ite Raw3BData.summary, apply_ite Raw3BData.accountHistory,
       apply_ite Raw3BData.accountHistoryPagination,
       apply_ite Raw3BData.publicRecords, apply_ite Raw3BData.inquiries,
       apply_ite Raw3BData.creditorContacts, ite_self])

/-- On a document whose single section carries the Account History heading,
the extractor processes exactly the given containers, indexed from 0. -/
theorem extractAccountHistory_mkAHDoc (fields : List String)
    (cs : List AccountContainer) :
    extractAccountHistory (mkAHDoc cs) fields
      = cs.enum.filterMap fun p => processAccount fields p.1 p.2 := by
  have hp : jsIncludes "Account History" "Account History" = true := by decide
  unfold extractAccountHistory mkAHDoc findAHSection
  simp only [List.find?, hp]
  cases cs <;> simp

/-- A container satisfying the grid precondition is emitted with all parts. -/
theorem processAccount_good (fields : List String) (idx : Nat)
    (c : AccountContainer) (g : AccountGrid) (hg : c.grid = some g)
    (hlen : 4 ≤ g.bureauColumns.length) :
    processAccount fields idx c = some
      { account_name := some (jsTrimOr c.nameText ("Unknown Account " ++ toString (idx + 1)))
        transunion := some (extractAccountBureau fields g.bureauColumns 1)
        experian := some (extractAccountBureau fields g.bureauColumns 2)
        equifax := some (extractAccountBureau fields g.bureauColumns 3)
        payment_history := extractPaymentHistory c
        days_late := extractDaysLate c } := by
  unfold processAccount
  rw [hg]
  simp only []
  rw [if_neg (by omega)]

/-- Index-wise description of the filtered map over good containers. -/
theorem filterMap_processAccount (fields : List String) :
    ∀ (cs : List AccountContainer) (n : Nat), (∀ c ∈ cs, goodGrid c) →
      ((cs.enumFrom n).filterMap fun p => processAccount fields p.1 p.2).length
          = cs.length ∧
      ∀ i (hi : i < cs.length),
        ((cs.enumFrom n).filterMap fun p => processAccount fields p.1 p.2)[i]?
          = processAccount fields (n + i) (cs.get ⟨i, hi⟩) := by
  intro cs
  induction cs with
  | nil => intro n _; exact ⟨rfl, fun i hi => absurd hi (by simp)⟩
  | cons c t ih =>
      intro n h
      obtain ⟨g, hg, hglen⟩ := h c (by simp)
      have hc := processAccount_good fields n c g hg hglen
      have iht := ih (n + 1) (fun x hx => h x (by simp [hx]))
      constructor
      · simp only [List.enumFrom, List.filterMap_cons, hc]
        simp [iht.1]
      · intro i hi
        cases i with
        | zero =>
            simp only [List.enumFrom, List.filterMap_cons, hc]
            simp [hc]
        | succ j =>
            simp only [List.enumFrom, List.filterMap_cons, hc]
            have hj : j < t.length := by simpa using hi
            have := iht.2 j hj
            simp only [List.getElem?_cons_succ]
            rw [this]
            congr 1
            omega

/-- C2 (confirmed): per-item isolation in the account-list extractor.  When
every container satisfies the grid precondition, all accounts are emitted
(same length, one account per container in order); each account carries its
name, its three populated per-bureau field maps, and its payment history as
computed by `extractPaymentHistory`; and an account whose payment-history
block is malformed (present but with fewer than three bureau blocks) is
still emitted, with `payment_history = null`. -/
theorem accountHistory_per_item_isolation (fields : List String)
    (cs : List AccountContainer) (h : ∀ c ∈ cs, goodGrid c) :
    (extractAccountHistory (mkAHDoc cs) fields).length = cs.length ∧
    ∀ i (hi : i < cs.length), ∃ a,
      (extractAccountHistory (mkAHDoc cs) fields)[i]? = some a ∧
      accountOK fields i (cs.get ⟨i, hi⟩) a ∧
      (∀ ph, (cs.get ⟨i, hi⟩).paymentHistory = some ph →
        ph.bureauHistories.length < 3 → a.payment_history = none) := by
  rw [extractAccountHistory_mkAHDoc]
  have henum : cs.enum = cs.enumFrom 0 := rfl
  rw [henum]
  have hmain := filterMap_processAccount fields cs 0 h
  refine ⟨by simpa using hmain.1, ?_⟩
  intro i hi
  obtain ⟨g, hg, hglen⟩ := h (cs.get ⟨i, hi⟩) (cs.get_mem _ _)
  have hp := processAccount_good fields i (cs.get ⟨i, hi⟩) g hg hglen
  have hgt := hmain.2 i hi
  rw [Nat.zero_add] at hgt
  refine ⟨_, by rw [hgt, hp], ?_, ?_⟩
  · refine ⟨rfl, ?_, rfl, rfl⟩
    intro g2 hg2
    rw [hg] at hg2
    cases hg2
    exact ⟨rfl, rfl, rfl⟩
  · intro ph hph hlt
    show extractPaymentHistory (cs.get ⟨i, hi⟩) = none
    unfold extractPaymentHistory
    rw [hph]
    simp only []
    rw [if_pos hlt]

/-- Witness for C2: three accounts, the second with a malformed
payment-history block, all emitted; the second has null payment history,
its name and bureau map intact, while the first keeps its payment history. -/
theorem accountHistory_per_item_isolation_witness :
    (extractAccountHistory (mkAHDoc [cAccA, cAccB, cAccC]) accountHistoryFields).length = 3 ∧
    (∃ a, (extractAccountHistory (mkAHDoc [cAccA, cAccB, cAccC]) accountHistoryFields)[1]?
        = some a ∧
      a.payment_history = none ∧
      a.account_name = some "CARD B" ∧
      a.transunion = some (extractAccountBureau accountHistoryFields acctGrid4.bureauColumns 1)) ∧
    (∃ a0, (extractAccountHistory (mkAHDoc [cAccA, cAccB, cAccC]) accountHistoryFields)[0]?
        = some a0 ∧ a0.payment_history ≠ none) := by
  have hgood : ∀ c ∈ [cAccA, cAccB, cAccC], goodGrid c := by
    intro c hc
    rcases List.mem_cons.mp hc with rfl | hc
    · exact ⟨acctGrid4, rfl, by decide⟩
    rcases List.mem_cons.mp hc with rfl | hc
    · exact ⟨acctGrid4, rfl, by decide⟩
    rcases List.mem_cons.mp hc with rfl | hc
    · exact ⟨acctGrid4, rfl, by decide⟩
    cases hc
  obtain ⟨hlen, hget⟩ :=
    accountHistory_per_item_isolation accountHistoryFields [cAccA, cAccB, cAccC] hgood
  refine ⟨by simpa using hlen, ?_, ?_⟩
  · obtain ⟨a, ha, hok, hmal⟩ := hget 1 (by decide)
    refine ⟨a, ha, ?_, ?_, ?_⟩
    · exact hmal phBad rfl (by decide)
    · rw [hok.1]; decide
    · exact (hok.2.1 acctGrid4 rfl).1
  · obtain ⟨a0, ha0, hok0, _⟩ := hget 0 (by decide)
    refine ⟨a0, ha0, ?_⟩
    rw [hok0.2.2.1]
    decide

/-- C6 (confirmed): pagination is a view over the fully-materialized
extraction: `accounts` is the slice `[offset, offset+limit)` of the full
list, `total` its full length, `hasMore` is `offset + limit < total`, and
the slice is positionally faithful. -/
theorem pagination_is_view (doc : AHDoc) (fields : List String)
    (limit offset : Nat) :
    (extractAccountHistoryPaginated doc fields ⟨some limit, some offset⟩).accounts
        = ((extractAccountHistory doc fields).drop offset).take limit ∧
    (extractAccountHistoryPaginated doc fields ⟨some limit, some offset⟩).total
        = (extractAccountHistory doc fields).length ∧
    ((extractAccountHistoryPaginated doc fields ⟨some limit, some offset⟩).hasMore = true
        ↔ offset + limit < (extractAccountHistory doc fields).length) ∧
    (extractAccountHistoryPaginated doc fields ⟨some limit, some offset⟩).accounts.length
        = min limit ((extractAccountHistory doc fields).length - offset) ∧
    ∀ i, i < limit →
      (extractAccountHistoryPaginated doc fields ⟨some limit, some offset⟩).accounts[i]?
        = (extractAccountHistory doc fields)[offset + i]? := by
  refine ⟨rfl, rfl, ?_, ?_, ?_⟩
  · simp [extractAccountHistoryPaginated]
  · simp [extractAccountHistoryPaginated]
  · intro i hi
    show (((extractAccountHistory doc fields).drop offset).take limit)[i]?
        = (extractAccountHistory doc fields)[offset + i]?
    rw [List.getElem?_take_of_lt hi, List.getElem?_drop]

/-- Witness for C6: with 34 extracted accounts and `{limit: 20, offset: 0}`
the paginated result has 20 accounts, total 34 and `hasMore` true. -/
theorem pagination_is_view_witness :
    (extractAccountHistoryPaginated ahDoc34 [] ⟨some 20, some 0⟩).accounts.length = 20 ∧
    (extractAccountHistoryPaginated ahDoc34 [] ⟨some 20, some 0⟩).total = 34 ∧
    (extractAccountHistoryPaginated ahDoc34 [] ⟨some 20, some 0⟩).hasMore = true ∧
    (extractAccountHistoryPaginated ahDoc34 [] ⟨some 20, some 0⟩).accounts[0]?
      = (extractAccountHistory ahDoc34 [])[0]? := by
  have h34 : (extractAccountHistory ahDoc34 []).length = 34 := by decide
  obtain ⟨hacc, htot, hmore, hlen, hget⟩ := pagination_is_view ahDoc34 [] 20 0
  refine ⟨?_, ?_, ?_, ?_⟩
  · rw [hlen, h34]; rfl
  · rw [htot, h34]
  · exact hmore.mpr (by rw [h34]; omega)
  · exact hget 0 (by omega)

/-- C4 (corrected): `extractGridData` returns `null` exactly when the
section ordinal is out of range, the grid ordinal is out of range, or the
grid has fewer than four column groups. -/
theorem extractGridData_none_iff (doc : GridDoc) (cfg : GridConfig) :
    extractGridData doc cfg = none ↔
      (doc.sections.length ≤ cfg.sectionIndex ∨
       ∃ sec, doc.sections[cfg.sectionIndex]? = some sec ∧
         (sec.grids.length ≤ cfg.gridIndex ∨
          ∃ g, sec.grids[cfg.gridIndex]? = some g ∧ g.columns.length < 4)) := by
  unfold extractGridData
  rw [List.get?_eq_getElem?]
  rcases hs : doc.sections[cfg.sectionIndex]? with _ | sec
  · have hlen : doc.sections.length ≤ cfg.sectionIndex :=
      List.getElem?_eq_none_iff.mp hs
    by_cases he : doc.sections.isEmpty <;> simp [he, hs, hlen]
  · have hne : doc.sections.isEmpty = false := by
      rcases hl : doc.sections with _ | ⟨a, t⟩
      · rw [hl] at hs; cases hs
      · rfl
    have hlt : ¬ doc.sections.length ≤ cfg.sectionIndex := by
      intro hle
      rw [List.getElem?_eq_none_iff.mpr hle] at hs
      cases hs
    rw [if_neg (by simp [hne])]
    simp only []
    rw [List.get?_eq_getElem?]
    rcases hg : sec.grids[cfg.gridIndex]? with _ | grid
    · have hglen : sec.grids.length ≤ cfg.gridIndex :=
        List.getElem?_eq_none_iff.mp hg
      by_cases hge : sec.grids.isEmpty <;> simp [hne, hs, hg, hge, hlt, hglen]
    · have hgne : sec.grids.isEmpty = false := by
        rcases hl : sec.grids with _ | ⟨a, t⟩
        · rw [hl] at hg; cases hg
        · rfl
      have hglt : ¬ sec.grids.length ≤ cfg.gridIndex := by
        intro hle
        rw [List.getElem?_eq_none_iff.mpr hle] at hg
        cases hg
      by_cases hc : grid.columns.length < 4 <;>
        simp [hne, hs, hg, hgne, hlt, hglt, hc]

/-- Counterexample for C7: with `includeDashboard` and dashboard scores
present, the `dashboard_summary` field also embeds a fresh timestamp, so two
builds at different clock readings differ in a field other than the
top-level `scraped_at`. -/
theorem buildFullReport_dashboard_clock_counterexample :
    (buildFullReport rawDash ⟨true⟩ "T1").map (fun l => l.lookup "dashboard_summary")
      ≠ (buildFullReport rawDash ⟨true⟩ "T2").map (fun l => l.lookup "dashboard_summary") := by
  have h1 : (buildFullReport rawDash ⟨true⟩ "T1").map (fun l => l.lookup "dashboard_summary")
      = .ok (some (buildCreditScoreData
          ⟨none, none, none, none, none, none, none, none, none⟩ "T1")) := rfl
  have h2 : (buildFullReport rawDash ⟨true⟩ "T2").map (fun l => l.lookup "dashboard_summary")
      = .ok (some (buildCreditScoreData
          ⟨none, none, none, none, none, none, none, none, none⟩ "T2")) := rfl
  intro h
  rw [h1, h2] at h
  simp [buildCreditScoreData] at h

/-- C7 (corrected): two applications of `buildFullReport` to the same raw
sections and options differ exactly by substituting the clock reading into
the top-level `scraped_at` entry and into the `dashboard_summary` entry
(whose nested `scraped_at` also comes from the clock); every other entry is
identical.  When the dashboard section is not built, `dashboardField` is
`jnull` for any clock value, so only `scraped_at` differs. -/
theorem buildFullReport_clock_independence (raw : BuilderRaw) (opts : BuildOptions)
    (t1 t2 : String) :
    buildFullReport raw opts t1 =
      (buildFullReport raw opts t2).map (List.map (fun kv =>
        if kv.1 = "scraped_at" then ("scraped_at", JVal.jstr t1)
        else if kv.1 = "dashboard_summary" then
          ("dashboard_summary", dashboardField raw opts t1)
        else kv)) := by
  unfold buildFullReport
  cases hsum : raw.summary with
  | none =>
      cases hpag : raw.accountHistoryPagination <;>
        simp [Except.map, Bind.bind, Except.bind, pure, Except.pure]
  | some g =>
      cases hp : parse3BSummary g with
      | error e =>
          simp [Except.map, Bind.bind, Except.bind, hp, pure, Except.pure]
      | ok s3 =>
          cases hpag : raw.accountHistoryPagination <;>
            simp [Except.map, Bind.bind, Except.bind, hp, pure, Except.pure]

/-- Counterexample for C8: a failed account-history section reaches the
builder as the empty array (the orchestrator's failure value), and the
builder emits `[]` — a present key, but not the claimed explicit null. -/
theorem report_failure_value_counterexample :
    (extractAll3BReport pageAHFail ["accountHistory"] ⟨none, none⟩).accountHistory
      = some [] ∧
    (buildFullReport { accountHistory := some [] } {} "t").map
        (fun l => l.lookup "account_history")
      = .ok (some (JVal.jarr [])) ∧
    JVal.jarr [] ≠ JVal.jnull := by
  refine ⟨rfl, rfl, by simp⟩

/-- C8 (corrected): every report carries all eight top-level keys; a section
whose raw value is absent or `null` appears as explicit `jnull`; but
`account_history` (and likewise `creditor_contacts`) encodes whatever list
arrives — in particular the empty-array failure value becomes `[]`, not
null. -/
theorem buildFullReport_schema_stability (raw : BuilderRaw) (opts : BuildOptions)
    (now : String) :
    ∀ l, buildFullReport raw opts now = .ok l →
      (reportKeys.all fun k => (l.lookup k).isSome) = true ∧
      l.lookup "credit_scores_3b" = some (jOptWith encScores raw.scores) ∧
      l.lookup "personal_information"
        = some (jOptWith (fun g => encPersonalInfo3 (parse3BPersonalInfo g)) raw.personalInfo) ∧
      (raw.summary = none → l.lookup "summary" = some JVal.jnull) ∧
      l.lookup "account_history"
        = some (jOptWith (fun al => JVal.jarr ((RB_parseAccountHistory al).map encParsedAccount))
            raw.accountHistory) ∧
      l.lookup "public_records" = some (jOptWith encCounts3 raw.publicRecords) ∧
      l.lookup "inquiries" = some (jOptWith encInquiries raw.inquiries) ∧
      l.lookup "creditor_contacts"
        = some (jOptWith (fun cl => JVal.jarr (cl.map jFieldMap)) raw.creditorContacts) ∧
      l.lookup "scraped_at" = some (JVal.jstr now) := by
  intro l hl
  unfold buildFullReport at hl
  cases hsum : raw.summary with
  | none =>
      rw [hsum] at hl
      simp only [Bind.bind, Except.bind, pure, Except.pure, Except.ok.injEq] at hl
      subst hl
      cases hpag : raw.accountHistoryPagination <;>
        simp [reportKeys, List.lookup, List.all, hsum, jOptWith]
  | some g =>
      rw [hsum] at hl
      simp only [] at hl
      cases hp : parse3BSummary g with
      | error e =>
          rw [hp] at hl
          simp [Bind.bind, Except.bind, Except.map, hp] at hl
      | ok s3 =>
          rw [hp] at hl
          simp only [Bind.bind, Except.bind, Except.map, pure, Except.pure,
            Except.ok.injEq] at hl
          subst hl
          cases hpag : raw.accountHistoryPagination <;>
            simp [reportKeys, List.lookup, List.all, hsum]

/-- Witness for C8: on an empty raw-sections object every key is present
and the never-extracted sections are explicit nulls. -/
theorem buildFullReport_schema_stability_witness :
    ∃ l, buildFullReport {} {} "2026-01-01" = .ok l ∧
      (reportKeys.all fun k => (l.lookup k).isSome) = true ∧
      l.lookup "summary" = some JVal.jnull ∧
      l.lookup "account_history" = some JVal.jnull := by
  obtain ⟨hall, hcs, hpi, hsum, hah, hrest⟩ :=
    buildFullReport_schema_stability {} {} "2026-01-01" _ rfl
  exact ⟨_, rfl, hall, hsum rfl, hah.trans rfl⟩

end CreditFix
